import Mathlib

/-
Verification of the WoRB (World of Rigid Bodies) physics engine.

This file is a shallow embedding, over the real numbers, of the C++ core of
the WoRB rigid-body simulator: the quaternion and tensor math primitives
(Quaternion.h, QTensor.h), the rigid body (RigidBody.h), the geometries and
collision detectors (Geometry.h, CollisionDetection.cpp), the contact registry
and resolvers (Collision.h, CollisionResolver.h, ImpulseMethod.cpp,
PositionProjections.cpp) and the world orchestrator (WoRB.h).

C++ `double` is modelled as the real number type; machine rounding is
abstracted away.  Pointers to rigid bodies are modelled as indices (`Option Nat`,
`none` for the null pointer of scenery) into a body store (`List RigidBody`);
dereferencing and in-place mutation through such a pointer become reads and
functional updates of the store.  Fixed-size arenas become lists together with
the source's explicit cursors and counters.
-/

noncomputable section

namespace WoRB

open Classical

/-! ## Quaternion (Quaternion.h) -/

/-- Hamilton real quaternion: scalar part `w` and vector (pure imaginary)
part `x, y, z`, exactly the four `double` members of `WoRB::Quaternion`. -/
@[ext]
structure Quaternion where
  w : ℝ
  x : ℝ
  y : ℝ
  z : ℝ

namespace Quaternion

/-- Default constructor `Quaternion()`: the zero quaternion. -/
def zeroQ : Quaternion := ⟨0, 0, 0, 0⟩

instance : Inhabited Quaternion := ⟨zeroQ⟩

/-- Constructor `Quaternion(double scalar)`: only the scalar part is set. -/
def ofScalar (scalar : ℝ) : Quaternion := ⟨scalar, 0, 0, 0⟩

/-- Component access `operator[]`: indices 0, 1, 2 address `x`, `y`, `z`
(the source reads from `&x + index`); any other index yields `w`. -/
def Elem (q : Quaternion) (index : ℕ) : ℝ :=
  match index with
  | 0 => q.x
  | 1 => q.y
  | 2 => q.z
  | _ => q.w

/-- Component update through `operator[]` (lvalue form). -/
def SetElem (q : Quaternion) (index : ℕ) (v : ℝ) : Quaternion :=
  match index with
  | 0 => { q with x := v }
  | 1 => { q with y := v }
  | 2 => { q with z := v }
  | _ => { q with w := v }

/-- Componentwise sum, `operator+`. -/
def add (q p : Quaternion) : Quaternion := ⟨q.w + p.w, q.x + p.x, q.y + p.y, q.z + p.z⟩

/-- Componentwise difference, `operator-`. -/
def sub (q p : Quaternion) : Quaternion := ⟨q.w - p.w, q.x - p.x, q.y - p.y, q.z - p.z⟩

/-- Componentwise negation, unary `operator-`. -/
def neg (q : Quaternion) : Quaternion := ⟨-q.w, -q.x, -q.y, -q.z⟩

/-- Hamilton product, `operator*(const Quaternion&)`. -/
def hmul (q p : Quaternion) : Quaternion :=
  ⟨q.w * p.w - q.x * p.x - q.y * p.y - q.z * p.z,
   q.w * p.x + q.x * p.w + q.y * p.z - q.z * p.y,
   q.w * p.y + q.y * p.w + q.z * p.x - q.x * p.z,
   q.w * p.z + q.z * p.w + q.x * p.y - q.y * p.x⟩

/-- Scaling of all four components, `operator*(double)` and the free
function `operator*(double, const Quaternion&)`. -/
def scale (q : Quaternion) (value : ℝ) : Quaternion :=
  ⟨q.w * value, q.x * value, q.y * value, q.z * value⟩

instance : Add Quaternion := ⟨add⟩
instance : Sub Quaternion := ⟨sub⟩
instance : Neg Quaternion := ⟨neg⟩
instance : Mul Quaternion := ⟨hmul⟩
instance : HMul Quaternion ℝ Quaternion := ⟨scale⟩
instance : HMul ℝ Quaternion Quaternion := ⟨fun a q => scale q a⟩
instance : SMul ℝ Quaternion := ⟨fun a q => scale q a⟩

@[simp] theorem add_w (q p : Quaternion) : (q + p).w = q.w + p.w := rfl
@[simp] theorem add_x (q p : Quaternion) : (q + p).x = q.x + p.x := rfl
@[simp] theorem add_y (q p : Quaternion) : (q + p).y = q.y + p.y := rfl
@[simp] theorem add_z (q p : Quaternion) : (q + p).z = q.z + p.z := rfl
@[simp] theorem sub_w (q p : Quaternion) : (q - p).w = q.w - p.w := rfl
@[simp] theorem sub_x (q p : Quaternion) : (q - p).x = q.x - p.x := rfl
@[simp] theorem sub_y (q p : Quaternion) : (q - p).y = q.y - p.y := rfl
@[simp] theorem sub_z (q p : Quaternion) : (q - p).z = q.z - p.z := rfl
@[simp] theorem neg_w (q : Quaternion) : (-q).w = -q.w := rfl
@[simp] theorem neg_x (q : Quaternion) : (-q).x = -q.x := rfl
@[simp] theorem neg_y (q : Quaternion) : (-q).y = -q.y := rfl
@[simp] theorem neg_z (q : Quaternion) : (-q).z = -q.z := rfl
@[simp] theorem scale_w (q : Quaternion) (a : ℝ) : (q * a).w = q.w * a := rfl
@[simp] theorem scale_x (q : Quaternion) (a : ℝ) : (q * a).x = q.x * a := rfl
@[simp] theorem scale_y (q : Quaternion) (a : ℝ) : (q * a).y = q.y * a := rfl
@[simp] theorem scale_z (q : Quaternion) (a : ℝ) : (q * a).z = q.z * a := rfl
@[simp] theorem smul_w (q : Quaternion) (a : ℝ) : (a * q).w = q.w * a := rfl
@[simp] theorem smul_x (q : Quaternion) (a : ℝ) : (a * q).x = q.x * a := rfl
@[simp] theorem smul_y (q : Quaternion) (a : ℝ) : (a * q).y = q.y * a := rfl
@[simp] theorem smul_z (q : Quaternion) (a : ℝ) : (a * q).z = q.z * a := rfl

/-- Componentwise product, `ComponentWiseProduct`. -/
def ComponentWiseProduct (q p : Quaternion) : Quaternion :=
  ⟨q.w * p.w, q.x * p.x, q.y * p.y, q.z * p.z⟩

/-- Vector (cross) product of the vector parts, `Cross`; the result is a pure
imaginary quaternion. -/
def Cross (q p : Quaternion) : Quaternion :=
  ⟨0, q.y * p.z - q.z * p.y, q.z * p.x - q.x * p.z, q.x * p.y - q.y * p.x⟩

/-- Scalar product of the vector parts only, `Dot` (the `w * q.w` term is
commented out in the source). -/
def Dot (q p : Quaternion) : ℝ := q.x * p.x + q.y * p.y + q.z * p.z

/-- Conjugate `Conjugate()`. -/
def Conjugate (q : Quaternion) : Quaternion := ⟨q.w, -q.x, -q.y, -q.z⟩

/-- Squared magnitude of all four components, `SquaredNorm`. -/
def SquaredNorm (q : Quaternion) : ℝ := q.w * q.w + q.x * q.x + q.y * q.y + q.z * q.z

/-- Squared magnitude of the vector part, `ImSquaredNorm`. -/
def ImSquaredNorm (q : Quaternion) : ℝ := q.x * q.x + q.y * q.y + q.z * q.z

/-- Magnitude `Norm` = `sqrt(SquaredNorm())`. -/
def Norm (q : Quaternion) : ℝ := Real.sqrt q.SquaredNorm

/-- Magnitude of the vector part, `ImNorm` = `sqrt(ImSquaredNorm())`. -/
def ImNorm (q : Quaternion) : ℝ := Real.sqrt q.ImSquaredNorm

/-- Normalization to the given length, `Normalize(double length)`.  A zero
quaternion gets `w = length` (its `x`, `y`, `z` stay, but they are all zero in
that case); otherwise all components are scaled by `length / Norm()`. -/
def Normalize (q : Quaternion) (length : ℝ) : Quaternion :=
  if q.Norm = 0 then { q with w := length } else q * (length / q.Norm)

/-- Normalized copy, `Unit()` with the default length 1. -/
def Unit (q : Quaternion) : Quaternion := q.Normalize 1

theorem squaredNorm_nonneg (q : Quaternion) : 0 ≤ q.SquaredNorm := by
  have hw := mul_self_nonneg q.w
  have hx := mul_self_nonneg q.x
  have hy := mul_self_nonneg q.y
  have hz := mul_self_nonneg q.z
  unfold SquaredNorm
  linarith

theorem squaredNorm_eq_zero (q : Quaternion) (h : q.SquaredNorm = 0) :
    q.w = 0 ∧ q.x = 0 ∧ q.y = 0 ∧ q.z = 0 := by
  have hw := mul_self_nonneg q.w
  have hx := mul_self_nonneg q.x
  have hy := mul_self_nonneg q.y
  have hz := mul_self_nonneg q.z
  unfold SquaredNorm at h
  refine ⟨?_, ?_, ?_, ?_⟩ <;> nlinarith

/-- Normalization really produces a unit quaternion: for every input, the
squared norm after `Normalize(1)` is exactly 1 (over the reals). -/
theorem normalize_one_squaredNorm (q : Quaternion) : (q.Normalize 1).SquaredNorm = 1 := by
  unfold Normalize
  by_cases h : q.Norm = 0
  · rw [if_pos h]
    unfold Norm at h
    have hsq : q.SquaredNorm = 0 := by
      have hn := q.squaredNorm_nonneg
      have := Real.sqrt_eq_zero hn |>.mp h
      exact this
    obtain ⟨_, hx, hy, hz⟩ := q.squaredNorm_eq_zero hsq
    simp [SquaredNorm, hx, hy, hz]
  · rw [if_neg h]
    have hsq : q.Norm * q.Norm = q.SquaredNorm := Real.mul_self_sqrt q.squaredNorm_nonneg
    have hne : q.SquaredNorm ≠ 0 := by
      intro h0
      apply h
      unfold Norm
      rw [h0, Real.sqrt_zero]
    show Quaternion.SquaredNorm (q.scale (1 / q.Norm)) = 1
    unfold SquaredNorm scale at *
    field_simp
    nlinarith [hsq]

end Quaternion

/-! ## Constants (Constants.h, Constants.cpp) -/

namespace Const

/-- Constant `Const::Pi`. -/
def Pi : ℝ := Real.pi

/-- Constant `Const::Max`, the largest finite `double`
(`std::numeric_limits<double>::max()`). -/
def Max : ℝ := 1.7976931348623157e308

/-- Unit vector `Const::X`. -/
def X : Quaternion := ⟨0, 1, 0, 0⟩

/-- Unit vector `Const::Y`. -/
def Y : Quaternion := ⟨0, 0, 1, 0⟩

/-- Unit vector `Const::Z`. -/
def Z : Quaternion := ⟨0, 0, 0, 1⟩

/-- Standard gravity `Const::g_n`, along the (downward) y-axis. -/
def g_n : Quaternion := ⟨0, 0, -9.80665, 0⟩

end Const

/-! ## QTensor (QTensor.h) -/

/-- Quaternionic tensor: a 4x4 matrix in column-major storage.  The sixteen
fields mirror `QTensor::Components` (`m.xx`, `m.yx`, ..., `m.ww`), where the
first letter is the row and the second the column. -/
@[ext]
structure QTensor where
  xx : ℝ
  yx : ℝ
  zx : ℝ
  wx : ℝ
  xy : ℝ
  yy : ℝ
  zy : ℝ
  wy : ℝ
  xz : ℝ
  yz : ℝ
  zz : ℝ
  wz : ℝ
  xw : ℝ
  yw : ℝ
  zw : ℝ
  ww : ℝ

namespace QTensor

/-- Matrix with all components zero, `QTensor(Zero)`. -/
def zeroT : QTensor := ⟨0, 0, 0, 0, 0, 0, 0, 0, 0, 0, 0, 0, 0, 0, 0, 0⟩

/-- Matrix with `m.ww = 1` and everything else zero; this is the default
`QTensor()` constructor (`Normalized`). -/
def normalized : QTensor := { zeroT with ww := 1 }

instance : Inhabited QTensor := ⟨normalized⟩

/-- Identity matrix, `QTensor(Identity)`. -/
def identity : QTensor := { zeroT with xx := 1, yy := 1, zz := 1, ww := 1 }

/-- Diagonal matrix from three values (and `ww`), the
`QTensor(xx, yy, zz, ww)` constructor. -/
def diag (dxx dyy dzz dww : ℝ) : QTensor :=
  { zeroT with xx := dxx, yy := dyy, zz := dzz, ww := dww }

/-- Constructor `SetColumnVectors`: the three vectors become the first three
columns; the fourth column is `(0,0,0,1)` and the `w` row is zero. -/
def SetColumnVectors (v1 v2 v3 : Quaternion) : QTensor :=
  { xx := v1.x, yx := v1.y, zx := v1.z, wx := 0,
    xy := v2.x, yy := v2.y, zy := v2.z, wy := 0,
    xz := v3.x, yz := v3.y, zz := v3.z, wz := 0,
    xw := 0, yw := 0, zw := 0, ww := 1 }

/-- Constructor `SetSkewSymmetric`: the skew-symmetric (cross product)
matrix of the vector part of `q`. -/
def SetSkewSymmetric (q : Quaternion) : QTensor :=
  { xx := 0,    yx := q.z,  zx := -q.y, wx := 0,
    xy := -q.z, yy := 0,    zy := q.x,  wy := 0,
    xz := q.y,  yz := -q.x, zz := 0,    wz := 0,
    xw := 0, yw := 0, zw := 0, ww := 0 }

/-- Constructor `SetFromOrientationAndPosition`: Shoemake rotation matrix of
the orientation quaternion with the translation in the fourth column. -/
def SetFromOrientationAndPosition (q translate : Quaternion) : QTensor :=
  { xx := 1 - 2 * (q.y * q.y + q.z * q.z),
    xy := 2 * (q.x * q.y - q.w * q.z),
    xz := 2 * (q.x * q.z + q.w * q.y),
    xw := translate.x,
    yx := 2 * (q.x * q.y + q.w * q.z),
    yy := 1 - 2 * (q.x * q.x + q.z * q.z),
    yz := 2 * (q.y * q.z - q.w * q.x),
    yw := translate.y,
    zx := 2 * (q.x * q.z - q.w * q.y),
    zy := 2 * (q.y * q.z + q.w * q.x),
    zz := 1 - 2 * (q.x * q.x + q.y * q.y),
    zw := translate.z,
    wx := 0, wy := 0, wz := 0, ww := 1 }

/-- Column access `Column(j)`: the column packed as a quaternion whose `w`
component is the column's `w`-row entry.  Indices above 3 read out of array
bounds in C++; they are mapped to the zero quaternion here and never used. -/
def Column (T : QTensor) (j : ℕ) : Quaternion :=
  match j with
  | 0 => ⟨T.wx, T.xx, T.yx, T.zx⟩
  | 1 => ⟨T.wy, T.xy, T.yy, T.zy⟩
  | 2 => ⟨T.wz, T.xz, T.yz, T.zz⟩
  | 3 => ⟨T.ww, T.xw, T.yw, T.zw⟩
  | _ => Quaternion.zeroQ

/-- Componentwise sum, `operator+`. -/
def addT (S T : QTensor) : QTensor :=
  ⟨S.xx + T.xx, S.yx + T.yx, S.zx + T.zx, S.wx + T.wx,
   S.xy + T.xy, S.yy + T.yy, S.zy + T.zy, S.wy + T.wy,
   S.xz + T.xz, S.yz + T.yz, S.zz + T.zz, S.wz + T.wz,
   S.xw + T.xw, S.yw + T.yw, S.zw + T.zw, S.ww + T.ww⟩

/-- Componentwise negation, unary `operator-`. -/
def negT (T : QTensor) : QTensor :=
  ⟨-T.xx, -T.yx, -T.zx, -T.wx, -T.xy, -T.yy, -T.zy, -T.wy,
   -T.xz, -T.yz, -T.zz, -T.wz, -T.xw, -T.yw, -T.zw, -T.ww⟩

instance : Add QTensor := ⟨addT⟩
instance : Neg QTensor := ⟨negT⟩

/-- Matrix product, `operator*(const QTensor&)`: the upper-left 3x3 blocks
and translations combine; the `w` row of the result is fixed to `(0,0,0,1)`. -/
def mulT (S T : QTensor) : QTensor :=
  { xx := S.xx * T.xx + S.xy * T.yx + S.xz * T.zx,
    xy := S.xx * T.xy + S.xy * T.yy + S.xz * T.zy,
    xz := S.xx * T.xz + S.xy * T.yz + S.xz * T.zz,
    xw := S.xx * T.xw + S.xy * T.yw + S.xz * T.zw + S.xw,
    yx := S.yx * T.xx + S.yy * T.yx + S.yz * T.zx,
    yy := S.yx * T.xy + S.yy * T.yy + S.yz * T.zy,
    yz := S.yx * T.xz + S.yy * T.yz + S.yz * T.zz,
    yw := S.yx * T.xw + S.yy * T.yw + S.yz * T.zw + S.yw,
    zx := S.zx * T.xx + S.zy * T.yx + S.zz * T.zx,
    zy := S.zx * T.xy + S.zy * T.yy + S.zz * T.zy,
    zz := S.zx * T.xz + S.zy * T.yz + S.zz * T.zz,
    zw := S.zx * T.xw + S.zy * T.yw + S.zz * T.zw + S.zw,
    wx := 0, wy := 0, wz := 0, ww := 1 }

instance : Mul QTensor := ⟨mulT⟩

/-- Application to the vector part of a quaternion; this is the shared formula
of `operator*(const Quaternion&)` and `operator()(const Quaternion&)`: a 3x3
rotation of `(x,y,z)` plus the translation column, with the scalar part set
to 0. -/
def transformQ (T : QTensor) (q : Quaternion) : Quaternion :=
  ⟨0,
   q.x * T.xx + q.y * T.xy + q.z * T.xz + T.xw,
   q.x * T.yx + q.y * T.yy + q.z * T.yz + T.yw,
   q.x * T.zx + q.y * T.zy + q.z * T.zz + T.zw⟩

instance : HMul QTensor Quaternion Quaternion := ⟨transformQ⟩

/-- Application of the inverse transform to a quaternion,
`TransformInverse(const Quaternion&)`: subtract the translation and multiply
by the transposed 3x3 block. -/
def TransformInverseQ (T : QTensor) (q : Quaternion) : Quaternion :=
  let del : Quaternion := q - ⟨0, T.xw, T.yw, T.zw⟩
  ⟨0,
   del.x * T.xx + del.y * T.yx + del.z * T.zx,
   del.x * T.xy + del.y * T.yy + del.z * T.zy,
   del.x * T.xz + del.y * T.yz + del.z * T.zz⟩

/-- Similarity transform of a tensor, `operator()(const QTensor&)`:
`this * T * this^T` on the 3x3 blocks.  The source leaves `result.m.wz`
uninitialized (it assigns `wx`, `wy` and, twice, `ww`); that never-read
component is modelled as 0. -/
def Similarity (M T : QTensor) : QTensor :=
  let t_xx := M.xx * T.xx + M.xy * T.yx + M.xz * T.zx
  let t_xy := M.xx * T.xy + M.xy * T.yy + M.xz * T.zy
  let t_xz := M.xx * T.xz + M.xy * T.yz + M.xz * T.zz
  let t_yx := M.yx * T.xx + M.yy * T.yx + M.yz * T.zx
  let t_yy := M.yx * T.xy + M.yy * T.yy + M.yz * T.zy
  let t_yz := M.yx * T.xz + M.yy * T.yz + M.yz * T.zz
  let t_zx := M.zx * T.xx + M.zy * T.yx + M.zz * T.zx
  let t_zy := M.zx * T.xy + M.zy * T.yy + M.zz * T.zy
  let t_zz := M.zx * T.xz + M.zy * T.yz + M.zz * T.zz
  { xx := t_xx * M.xx + t_xy * M.xy + t_xz * M.xz,
    xy := t_xx * M.yx + t_xy * M.yy + t_xz * M.yz,
    xz := t_xx * M.zx + t_xy * M.zy + t_xz * M.zz,
    xw := 0,
    yx := t_yx * M.xx + t_yy * M.xy + t_yz * M.xz,
    yy := t_yx * M.yx + t_yy * M.yy + t_yz * M.yz,
    yz := t_yx * M.zx + t_yy * M.zy + t_yz * M.zz,
    yw := 0,
    zx := t_zx * M.xx + t_zy * M.xy + t_zz * M.xz,
    zy := t_zx * M.yx + t_zy * M.yy + t_zz * M.yz,
    zz := t_zx * M.zx + t_zy * M.zy + t_zz * M.zz,
    zw := 0,
    wx := 0, wy := 0, wz := 0, ww := 1 }

/-- Inverse similarity transform, `TransformInverse(const QTensor&)`:
`this^T * T * this` on the 3x3 blocks; as in `Similarity`, the never-read
`wz` component that the source leaves uninitialized is modelled as 0. -/
def TransformInverseT (M T : QTensor) : QTensor :=
  let t_xx := M.xx * T.xx + M.yx * T.yx + M.zx * T.zx
  let t_xy := M.xx * T.xy + M.yx * T.yy + M.zx * T.zy
  let t_xz := M.xx * T.xz + M.yx * T.yz + M.zx * T.zz
  let t_yx := M.xy * T.xx + M.yy * T.yx + M.zy * T.zx
  let t_yy := M.xy * T.xy + M.yy * T.yy + M.zy * T.zy
  let t_yz := M.xy * T.xz + M.yy * T.yz + M.zy * T.zz
  let t_zx := M.xz * T.xx + M.yz * T.yx + M.zz * T.zx
  let t_zy := M.xz * T.xy + M.yz * T.yy + M.zz * T.zy
  let t_zz := M.xz * T.xz + M.yz * T.yz + M.zz * T.zz
  { xx := t_xx * M.xx + t_xy * M.yx + t_xz * M.zx,
    xy := t_xx * M.xy + t_xy * M.yy + t_xz * M.zy,
    xz := t_xx * M.xz + t_xy * M.yz + t_xz * M.zz,
    xw := 0,
    yx := t_yx * M.xx + t_yy * M.yx + t_yz * M.zx,
    yy := t_yx * M.xy + t_yy * M.yy + t_yz * M.zy,
    yz := t_yx * M.xz + t_yy * M.yz + t_yz * M.zz,
    yw := 0,
    zx := t_zx * M.xx + t_zy * M.yx + t_zz * M.zx,
    zy := t_zx * M.xy + t_zy * M.yy + t_zz * M.zy,
    zz := t_zx * M.xz + t_zy * M.yz + t_zz * M.zz,
    zw := 0,
    wx := 0, wy := 0, wz := 0, ww := 1 }

/-- Determinant of the upper-left 3x3 block, `Determinant()`. -/
def Determinant (T : QTensor) : ℝ :=
  -T.zx * T.yy * T.xz + T.yx * T.zy * T.xz + T.zx * T.xy * T.yz
    - T.xx * T.zy * T.yz - T.yx * T.xy * T.zz + T.xx * T.yy * T.zz

/-- Inverse, `SetInverseOf` / `Inverse()`: adjugate of the 3x3 block and the
matching translation column, all divided by the determinant; a singular input
(determinant 0) yields the all-zero matrix.  The source never writes the `w`
row of the destination (it only divides whatever was there by the
determinant); since that row is never read afterwards it is modelled as
zero. -/
def Inverse (T : QTensor) : QTensor :=
  let det := T.Determinant
  if det = 0 then zeroT
  else
    { xx := (-T.zy * T.yz + T.yy * T.zz) / det,
      yx := (T.zx * T.yz - T.yx * T.zz) / det,
      zx := (-T.zx * T.yy + T.yx * T.zy) / det,
      xy := (T.zy * T.xz - T.xy * T.zz) / det,
      yy := (-T.zx * T.xz + T.xx * T.zz) / det,
      zy := (T.zx * T.xy - T.xx * T.zy) / det,
      xz := (-T.yy * T.xz + T.xy * T.yz) / det,
      yz := (T.yx * T.xz - T.xx * T.yz) / det,
      zz := (-T.yx * T.xy + T.xx * T.yy) / det,
      xw := (T.zy * T.yz * T.xw - T.yy * T.zz * T.xw - T.zy * T.xz * T.yw
              + T.xy * T.zz * T.yw + T.yy * T.xz * T.zw - T.xy * T.yz * T.zw) / det,
      yw := (-T.zx * T.yz * T.xw + T.yx * T.zz * T.xw + T.zx * T.xz * T.yw
              - T.xx * T.zz * T.yw - T.yx * T.xz * T.zw + T.xx * T.yz * T.zw) / det,
      zw := (T.zx * T.yy * T.xw - T.yx * T.zy * T.xw - T.zx * T.xy * T.yw
              + T.xx * T.zy * T.yw + T.yx * T.xy * T.zw - T.xx * T.yy * T.zw) / det,
      wx := 0, wy := 0, wz := 0, ww := 0 }

end QTensor

/-! ## RigidBody (RigidBody.h) -/

/-- Rigid body state, properties, derived quantities, accumulators and flags,
field for field as in `WoRB::RigidBody`. -/
@[ext]
structure RigidBody where
  InverseMass : ℝ
  InverseInertiaBody : QTensor
  Position : Quaternion
  Orientation : Quaternion
  LinearMomentum : Quaternion
  AngularMomentum : Quaternion
  ToWorld : QTensor
  InverseInertiaWorld : QTensor
  Velocity : Quaternion
  AngularVelocity : Quaternion
  TotalAngularMomentum : Quaternion
  KineticEnergy : ℝ
  PotentialEnergy : ℝ
  AverageKineticEnergy : ℝ
  KineticEnergyThreshold : ℝ
  KineticEnergyDamping : Bool
  Force : Quaternion
  Torque : Quaternion
  IsActive : Bool
  CanBeDeactivated : Bool

namespace RigidBody

/-- Default constructor `RigidBody()`: zero inverse mass, identity world
transform, zeroed energies, inactive; the members without initializers
(quaternions and the inertia tensors) are default-constructed, i.e. zero
quaternions and `Normalized` tensors. -/
def init : RigidBody :=
  { InverseMass := 0
    InverseInertiaBody := QTensor.normalized
    Position := Quaternion.zeroQ
    Orientation := Quaternion.zeroQ
    LinearMomentum := Quaternion.zeroQ
    AngularMomentum := Quaternion.zeroQ
    ToWorld := QTensor.identity
    InverseInertiaWorld := QTensor.normalized
    Velocity := Quaternion.zeroQ
    AngularVelocity := Quaternion.zeroQ
    TotalAngularMomentum := Quaternion.zeroQ
    KineticEnergy := 0
    PotentialEnergy := 0
    AverageKineticEnergy := 0
    KineticEnergyThreshold := 0
    KineticEnergyDamping := false
    Force := Quaternion.zeroQ
    Torque := Quaternion.zeroQ
    IsActive := false
    CanBeDeactivated := false }

instance : Inhabited RigidBody := ⟨init⟩

/-- Mass setter `SetupMass`: the inverse mass is `1e30` for a zero mass, `0`
for a mass of at least `1e30`, and `1/mass` otherwise; the kinetic-energy
threshold becomes `0.3 * mass`. -/
def SetupMass (b : RigidBody) (mass : ℝ) : RigidBody :=
  { b with
    InverseMass := if mass = 0 then 1e30 else if 1e30 ≤ mass then 0 else 1 / mass
    KineticEnergyThreshold := 0.3 * mass }

/-- Mass getter `Mass()`: inverts the inverse-mass encoding with the same
thresholds. -/
def Mass (b : RigidBody) : ℝ :=
  if b.InverseMass = 0 then 1e30
  else if 1e30 ≤ b.InverseMass then 0
  else 1 / b.InverseMass

/-- Predicate `IsFiniteMass()`: the inverse mass is positive. -/
def IsFiniteMass (b : RigidBody) : Prop := 0 < b.InverseMass

/-- Method `Deactivate()`: clears the active flag and zeroes the momenta,
velocities, energies and accumulators. -/
def Deactivate (b : RigidBody) : RigidBody :=
  { b with
    IsActive := false
    LinearMomentum := Quaternion.zeroQ
    AngularMomentum := Quaternion.zeroQ
    TotalAngularMomentum := Quaternion.zeroQ
    Velocity := Quaternion.zeroQ
    AngularVelocity := Quaternion.zeroQ
    KineticEnergy := 0
    Force := Quaternion.zeroQ
    Torque := Quaternion.zeroQ }

/-- Method `Activate()`: acts only on an inactive body, setting the active
flag and seeding the average kinetic energy with `2 * 0.3 * Mass()`. -/
def Activate (b : RigidBody) : RigidBody :=
  if b.IsActive then b
  else { b with IsActive := true, AverageKineticEnergy := 2 * 0.3 * b.Mass }

/-- Method `SetCanBeDeactivated(flag)`. -/
def SetCanBeDeactivated (b : RigidBody) (flag : Bool) : RigidBody :=
  let b := { b with CanBeDeactivated := flag }
  if ¬b.CanBeDeactivated ∧ ¬b.IsActive then b.Activate else b

/-- Method `ClearAccumulators()`. -/
def ClearAccumulators (b : RigidBody) : RigidBody :=
  { b with Force := Quaternion.zeroQ, Torque := Quaternion.zeroQ, PotentialEnergy := 0 }

/-- Method `AddExternalForce(force, potentialEnergy)`: accumulates into the
force and the potential energy without activating the body. -/
def AddExternalForce (b : RigidBody) (force : Quaternion) (potentialEnergy : ℝ) : RigidBody :=
  { b with Force := b.Force + force, PotentialEnergy := b.PotentialEnergy + potentialEnergy }

/-- Method `AddForce`: like `AddExternalForce` but activates the body. -/
def AddForce (b : RigidBody) (force : Quaternion) (potentialEnergy : ℝ) : RigidBody :=
  { b with
    Force := b.Force + force
    PotentialEnergy := b.PotentialEnergy + potentialEnergy
    IsActive := true }

/-- Method `AddForceAtPoint`: accumulates force, torque
`(worldPoint - X) x force` and potential energy, and activates the body. -/
def AddForceAtPoint (b : RigidBody) (worldPoint force : Quaternion)
    (potentialEnergy : ℝ) : RigidBody :=
  { b with
    Force := b.Force + force
    Torque := b.Torque + (worldPoint - b.Position).Cross force
    PotentialEnergy := b.PotentialEnergy + potentialEnergy
    IsActive := true }

/-- Method `SetMomentOfInertia`: stores the inverse of the given body-frame
inertia tensor. -/
def SetMomentOfInertia (b : RigidBody) (I_body : QTensor) : RigidBody :=
  { b with InverseInertiaBody := I_body.Inverse }

/-- Method `CalculateDerivedQuantities(fromMomenta)`: normalizes the
orientation, rebuilds the world transform and the world-frame inverse inertia,
derives velocities from momenta (or momenta from velocities), and recomputes
the total angular momentum and the kinetic energy. -/
def CalculateDerivedQuantities (b : RigidBody) (fromMomenta : Bool) : RigidBody :=
  let orientation := b.Orientation.Normalize 1
  let toWorld := QTensor.SetFromOrientationAndPosition orientation b.Position
  let invIW := QTensor.Similarity toWorld b.InverseInertiaBody
  let velocity := if fromMomenta then b.InverseMass * b.LinearMomentum else b.Velocity
  let angularVelocity := if fromMomenta then invIW * b.AngularMomentum else b.AngularVelocity
  let linearMomentum := if fromMomenta then b.LinearMomentum else b.Mass * b.Velocity
  let angularMomentum := if fromMomenta then b.AngularMomentum else invIW.Inverse * b.AngularVelocity
  { b with
    Orientation := orientation
    ToWorld := toWorld
    InverseInertiaWorld := invIW
    Velocity := velocity
    AngularVelocity := angularVelocity
    LinearMomentum := linearMomentum
    AngularMomentum := angularMomentum
    TotalAngularMomentum := b.Position.Cross linearMomentum + angularMomentum
    KineticEnergy := 0.5 * velocity.Dot linearMomentum
                      + 0.5 * angularVelocity.Dot angularMomentum }

/-- Initializer `Set_XQVW`: stores position, orientation, velocity and angular
velocity and derives the remaining quantities from the velocities. -/
def Set_XQVW (b : RigidBody) (X Q V W : Quaternion) : RigidBody :=
  ({ b with Position := X, Orientation := Q, Velocity := V, AngularVelocity := W
   } : RigidBody).CalculateDerivedQuantities false

/-- Method `DampMomentum(timeStep)`: the linear damping constant is 0, so the
linear momentum is left untouched; the angular momentum is scaled by
`0.998 ^ timeStep`. -/
def DampMomentum (b : RigidBody) (timeStep : ℝ) : RigidBody :=
  { b with AngularMomentum := b.AngularMomentum * ((0.998 : ℝ) ^ timeStep) }

/-- Final block of `SolveODE(h)`: when the body may deactivate, update the
exponential average of the kinetic energy with `alpha = (1/2)^h`, deactivate
below the threshold and clamp at ten times the threshold. -/
def UpdateActivity (b : RigidBody) (h : ℝ) : RigidBody :=
  if b.CanBeDeactivated then
    let alpha := (0.5 : ℝ) ^ h
    let avg := alpha * b.AverageKineticEnergy + (1 - alpha) * b.KineticEnergy
    let b := { b with AverageKineticEnergy := avg }
    if avg < b.KineticEnergyThreshold then b.Deactivate
    else if 10 * b.KineticEnergyThreshold < avg then
      { b with AverageKineticEnergy := 10 * b.KineticEnergyThreshold }
    else b
  else b

/-- Integrator `SolveODE(h)` of a single rigid body: inactive bodies return
unchanged; an active body accumulates force and torque into its momenta,
optionally damps, derives velocities, advances position and orientation,
normalizes and rebuilds the derived quantities, and finally updates the
exponential average of the kinetic energy, deactivating or clamping as the
thresholds dictate. -/
def SolveODE (b : RigidBody) (h : ℝ) : RigidBody :=
  if ¬b.IsActive then b
  else
    let b := { b with LinearMomentum := b.LinearMomentum + b.Force * h }
    let b := { b with AngularMomentum := b.AngularMomentum + b.Torque * h }
    let b := if b.KineticEnergyDamping then b.DampMomentum h else b
    let b := { b with
      Velocity := b.InverseMass * b.LinearMomentum
      AngularVelocity := b.InverseInertiaWorld * b.AngularMomentum }
    let orientationDot := ((0.5 : ℝ) • b.AngularVelocity) * b.Orientation
    let b := { b with Position := b.Position + b.Velocity * h }
    let b := { b with Orientation := b.Orientation + orientationDot * h }
    UpdateActivity (b.CalculateDerivedQuantities true) h

theorem calculateDerivedQuantities_orientation (b : RigidBody) (fromMomenta : Bool) :
    (b.CalculateDerivedQuantities fromMomenta).Orientation = b.Orientation.Normalize 1 := rfl

theorem activate_orientation (b : RigidBody) : b.Activate.Orientation = b.Orientation := by
  unfold Activate
  split <;> rfl

theorem deactivate_orientation (b : RigidBody) : b.Deactivate.Orientation = b.Orientation := rfl

theorem clearAccumulators_orientation (b : RigidBody) :
    b.ClearAccumulators.Orientation = b.Orientation := rfl

theorem addExternalForce_orientation (b : RigidBody) (f : Quaternion) (e : ℝ) :
    (b.AddExternalForce f e).Orientation = b.Orientation := rfl

theorem updateActivity_orientation (b : RigidBody) (h : ℝ) :
    (b.UpdateActivity h).Orientation = b.Orientation := by
  unfold UpdateActivity
  simp only [Deactivate]
  split_ifs <;> rfl

/-- Integration of a single body either leaves the orientation untouched
(inactive bodies) or leaves it exactly normalized. -/
theorem solveODE_orientation (b : RigidBody) (h : ℝ) :
    (b.SolveODE h).Orientation = b.Orientation ∨
      (b.SolveODE h).Orientation.SquaredNorm = 1 := by
  unfold SolveODE
  by_cases hact : ¬b.IsActive
  · rw [if_pos hact]
    exact Or.inl rfl
  · rw [if_neg hact]
    right
    simp only [updateActivity_orientation, calculateDerivedQuantities_orientation,
      Quaternion.normalize_one_squaredNorm]

end RigidBody

/-! ## Body store: pointers as indices -/

/-- Dereference of a possibly-null `RigidBody*`: `none` is the null pointer of
a scenery geometry.  A null or dangling dereference (which would be undefined
behavior in the source and is never exercised by it) yields the
default-constructed body. -/
def bodyRef (bodies : List RigidBody) (r : Option ℕ) : RigidBody :=
  match r with
  | some i => bodies.getD i RigidBody.init
  | none => RigidBody.init

/-- Mutation through a possibly-null `RigidBody*`: updates the body at the
given index in place; a null or out-of-range pointer leaves the store
unchanged (the source never exercises that case). -/
def updateRef (bodies : List RigidBody) (r : Option ℕ) (f : RigidBody → RigidBody) :
    List RigidBody :=
  match r with
  | some i => bodies.set i (f (bodies.getD i RigidBody.init))
  | none => bodies

/-! ## Collision (Collision.h) -/

/-- Contact record, field for field as in `WoRB::Collision`: the two body
pointers (`Body_B = none` for scenery), the contact point, normal and
penetration with the response coefficients, and the derived quantities
(contact-to-world basis, relative contact velocity, bouncing velocity and the
two relative positions `RelativePosition[0]`, `RelativePosition[1]`). -/
@[ext]
structure Collision where
  Body_A : Option ℕ
  Body_B : Option ℕ
  Position : Quaternion
  Normal : Quaternion
  Penetration : ℝ
  Restitution : ℝ
  Friction : ℝ
  ToWorld : QTensor
  Velocity : Quaternion
  BouncingVelocity : ℝ
  RelativePositionA : Quaternion
  RelativePositionB : Quaternion

/-- Contact slots of the arena carry no constructor in the source
(uninitialized memory); the placeholder used for the never-exercised
out-of-range reads is all zero. -/
def Collision.blank : Collision :=
  { Body_A := none, Body_B := none
    Position := Quaternion.zeroQ, Normal := Quaternion.zeroQ
    Penetration := 0, Restitution := 0, Friction := 0
    ToWorld := QTensor.zeroT, Velocity := Quaternion.zeroQ
    BouncingVelocity := 0
    RelativePositionA := Quaternion.zeroQ, RelativePositionB := Quaternion.zeroQ }

instance : Inhabited Collision := ⟨Collision.blank⟩

namespace Collision

/-- Predicate `WithScenery()`: the second body pointer is null. -/
def WithScenery (c : Collision) : Prop := c.Body_B = none

/-- Helper `FindOrthonormalBasisAtContactPoint`: builds the contact-to-world
basis with the normal as first column and two tangents; the branch is chosen
on whether the world z-axis is nearer to the y- or the x-axis. -/
def FindOrthonormalBasisAtContactPoint (N : Quaternion) : QTensor :=
  if |N.y| < |N.x| then
    let length := 1 / Real.sqrt (N.z * N.z + N.x * N.x)
    let tangent_Y : Quaternion := ⟨0, N.z * length, 0, -(N.x * length)⟩
    let tangent_Z : Quaternion :=
      ⟨0, N.y * tangent_Y.x, N.z * tangent_Y.x - N.x * tangent_Y.z, -(N.y * tangent_Y.x)⟩
    QTensor.SetColumnVectors N tangent_Y (tangent_Z.Normalize 1)
  else
    let length := 1 / Real.sqrt (N.z * N.z + N.y * N.y)
    let tangent_Y : Quaternion := ⟨0, 0, -(N.z * length), N.y * length⟩
    let tangent_Z : Quaternion :=
      ⟨0, N.y * tangent_Y.z - N.z * tangent_Y.y, -(N.x * tangent_Y.z), N.x * tangent_Y.y⟩
    QTensor.SetColumnVectors N tangent_Y (tangent_Z.Normalize 1)

/-- Helper `GetRelativeVelocity(body, relativePosition, h)`: the contact-frame
velocity of the contact point on the body, plus the tangential part of the
velocity induced by the force accumulated over the last time-step. -/
def GetRelativeVelocity (toWorld : QTensor) (body : RigidBody)
    (relativePosition : Quaternion) (h : ℝ) : Quaternion :=
  let V_world := body.Velocity + body.AngularVelocity.Cross relativePosition
  let V := toWorld.TransformInverseQ V_world
  let dV_world := (body.InverseMass * body.Force) * h
  let dV := toWorld.TransformInverseQ dV_world
  let dV := { dV with x := 0 }
  V + dV

/-- Helper `GetBouncingVelocity(h)`: the desired change in normal velocity,
`-(1 + COR) * Velocity.x + COR * dV_fromForce`, where the restitution is
clamped to 0 when the velocity (less the force-induced part) is below 0.25. -/
def GetBouncingVelocity (bodies : List RigidBody) (c : Collision) (h : ℝ) : ℝ :=
  let bA := bodyRef bodies c.Body_A
  let dv1 := if bA.IsActive then ((bA.InverseMass * bA.Force) * h).Dot c.Normal else 0
  let dV_fromForce_x :=
    match c.Body_B with
    | some j =>
      let bB := bodyRef bodies (some j)
      if bB.IsActive then dv1 - ((bB.InverseMass * bB.Force) * h).Dot c.Normal else dv1
    | none => dv1
  let COR : ℝ := if |c.Velocity.x - dV_fromForce_x| < 0.25 then 0 else c.Restitution
  let result := -(1 + COR) * c.Velocity.x + COR * dV_fromForce_x
  result

/-- Method `UpdateDerivedQuantities(h)` of a contact: normalize the pair so
that `Body_A` is non-null (swapping and flipping the normal if needed), build
the contact basis, the relative positions, the relative contact velocity and
the bouncing velocity.  When `Body_B` is null, `RelativePosition[1]` is left
stale, as in the source. -/
def UpdateDerivedQuantities (bodies : List RigidBody) (c : Collision) (h : ℝ) : Collision :=
  let c := if c.Body_A = none then
      { c with Normal := -c.Normal, Body_A := c.Body_B, Body_B := c.Body_A }
    else c
  let c := { c with ToWorld := FindOrthonormalBasisAtContactPoint c.Normal }
  let bA := bodyRef bodies c.Body_A
  let relA := c.Position - bA.Position
  let velA := GetRelativeVelocity c.ToWorld bA relA h
  let c :=
    match c.Body_B with
    | some j =>
      let bB := bodyRef bodies (some j)
      let relB := c.Position - bB.Position
      { c with
        RelativePositionA := relA
        RelativePositionB := relB
        Velocity := velA - GetRelativeVelocity c.ToWorld bB relB h }
    | none => { c with RelativePositionA := relA, Velocity := velA }
  { c with BouncingVelocity := GetBouncingVelocity bodies c h }

/-- Helper `ActivateInactiveBodies()`: when exactly one body of a body-body
contact is active, activate the other; scenery contacts activate nothing. -/
def ActivateInactiveBodies (bodies : List RigidBody) (c : Collision) : List RigidBody :=
  match c.Body_B with
  | some j =>
    let bA := bodyRef bodies c.Body_A
    let bB := bodyRef bodies (some j)
    if Bool.xor bA.IsActive bB.IsActive then
      if bA.IsActive then updateRef bodies (some j) RigidBody.Activate
      else updateRef bodies c.Body_A RigidBody.Activate
    else bodies
  | none => bodies

/-- Helper `GetImpulse()`: frictionless impulse along the contact normal,
bouncing velocity divided by the inverse reduced mass. -/
def GetImpulse (bodies : List RigidBody) (c : Collision) : Quaternion :=
  let bA := bodyRef bodies c.Body_A
  let invRedMass := bA.InverseMass
      + ((bA.InverseInertiaWorld * (c.RelativePositionA.Cross c.Normal)).Cross
          c.RelativePositionA).Dot c.Normal
  let invRedMass :=
    match c.Body_B with
    | some j =>
      let bB := bodyRef bodies (some j)
      invRedMass + bB.InverseMass
        + ((bB.InverseInertiaWorld * (c.RelativePositionB.Cross c.Normal)).Cross
            c.RelativePositionB).Dot c.Normal
    | none => invRedMass
  ⟨0, c.BouncingVelocity / invRedMass, 0, 0⟩

/-- Helper `GetImpulse_IncludeFriction()`: the full impulse from the 3x3
velocity-jolt matrix, falling back to dynamic (Coulomb) friction when the
tangential component exceeds the friction cone. -/
def GetImpulse_IncludeFriction (bodies : List RigidBody) (c : Collision) : Quaternion :=
  let bA := bodyRef bodies c.Body_A
  let crossR_A := QTensor.SetSkewSymmetric c.RelativePositionA
  let delta_V_world := -(crossR_A * bA.InverseInertiaWorld * crossR_A)
  let delta_V_world :=
    match c.Body_B with
    | some j =>
      let bB := bodyRef bodies (some j)
      let crossR_B := QTensor.SetSkewSymmetric c.RelativePositionB
      delta_V_world + -(crossR_B * bB.InverseInertiaWorld * crossR_B)
    | none => delta_V_world
  let delta_V_contact := c.ToWorld.TransformInverseT delta_V_world
  let inverseReducedMass := bA.InverseMass +
    (match c.Body_B with
     | some j => (bodyRef bodies (some j)).InverseMass
     | none => 0)
  let delta_V_contact := { delta_V_contact with
    xx := delta_V_contact.xx + inverseReducedMass
    yy := delta_V_contact.yy + inverseReducedMass
    zz := delta_V_contact.zz + inverseReducedMass }
  if c.Friction = 0 then ⟨0, c.BouncingVelocity / delta_V_contact.xx, 0, 0⟩
  else
    let target_V : Quaternion := ⟨0, c.BouncingVelocity, -c.Velocity.y, -c.Velocity.z⟩
    let J : Quaternion := QTensor.transformQ delta_V_contact.Inverse target_V
    let J_tangential := Real.sqrt (J.y * J.y + J.z * J.z)
    if J.x * c.Friction < J_tangential then
      let Jy := J.y / J_tangential
      let Jz := J.z / J_tangential
      let invm := delta_V_contact.xx
        + delta_V_contact.xy * c.Friction * Jy
        + delta_V_contact.xz * c.Friction * Jz
      let j_normal := c.BouncingVelocity / invm
      ⟨J.w, j_normal, Jy * (c.Friction * j_normal), Jz * (c.Friction * j_normal)⟩
    else J

/-- Method `ImpulseTransfer(V_jolt, W_jolt)`: computes the contact-frame
impulse (with or without friction), rotates it to world frame, adds it (with
its torque) to body A's momenta and subtracts it from body B's, and returns
the per-body linear and angular velocity jolts.  The jolt slots of a missing
body B stay default-constructed, i.e. zero. -/
def ImpulseTransfer (bodies : List RigidBody) (c : Collision) :
    List RigidBody × (Quaternion × Quaternion) × (Quaternion × Quaternion) :=
  let J_contact := if c.Friction = 0 then GetImpulse bodies c
                   else GetImpulse_IncludeFriction bodies c
  let J := c.ToWorld * J_contact
  let J_torque := c.RelativePositionA.Cross J
  let bodies := updateRef bodies c.Body_A fun b =>
    { b with LinearMomentum := b.LinearMomentum + J
             AngularMomentum := b.AngularMomentum + J_torque }
  let bA := bodyRef bodies c.Body_A
  let V_jolt0 := bA.InverseMass * J
  let W_jolt0 := bA.InverseInertiaWorld * J_torque
  match c.Body_B with
  | some j =>
    let J_torque_B := c.RelativePositionB.Cross J
    let bodies := updateRef bodies (some j) fun b =>
      { b with LinearMomentum := b.LinearMomentum - J
               AngularMomentum := b.AngularMomentum - J_torque_B }
    let bB := bodyRef bodies (some j)
    (bodies, (V_jolt0, -(bB.InverseMass * J)), (W_jolt0, -(bB.InverseInertiaWorld * J_torque_B)))
  | none => (bodies, (V_jolt0, Quaternion.zeroQ), (W_jolt0, Quaternion.zeroQ))

/-- Angular part of the inverse inertia at the contact for one body,
`((I_world^-1 * (r x N)) x r) . N`, as computed in the first loop of
`PositionProjection`. -/
def InverseAngularInertia (invIW : QTensor) (rel N : Quaternion) : ℝ :=
  ((invIW * (rel.Cross N)).Cross rel).Dot N

/-- Body update of the second loop of `PositionProjection` for one side of
the contact: split the (relaxed, sign-adjusted) penetration into a linear and
an angular movement in proportion to the inverse inertias, clamp the angular
part, apply the position jolt, and, if the angular part is nonzero, apply the
orientation jolt and rebuild the derived quantities.  Returns the updated
store and the jolts `(X_jolt[i], Q_jolt[i])`. -/
def RelaxedPenetration (signedPenetration relaxation : ℝ) : ℝ :=
  if 0 < relaxation ∧ relaxation ≤ 1
  then signedPenetration * (1 - relaxation) else signedPenetration

/-- Clamp block of `PositionProjection`: limit the angular movement to plus
or minus `max_Q`, pouring the excess back into the linear movement. -/
def ClampAngularMovement (delta_X delta_Q max_Q : ℝ) : ℝ × ℝ :=
  if delta_Q < -max_Q then (delta_X + delta_Q + max_Q, -max_Q)
  else if max_Q < delta_Q then (delta_X + delta_Q - max_Q, max_Q)
  else (delta_X, delta_Q)

def PositionProjectionSide (bodies : List RigidBody) (bodyIdx : Option ℕ)
    (signedPenetration : ℝ) (relaxation : ℝ) (invIW : QTensor) (invAng : ℝ)
    (invTotal : ℝ) (rel N : Quaternion) : List RigidBody × Quaternion × Quaternion :=
  match bodyIdx with
  | none => (bodies, Quaternion.zeroQ, Quaternion.zeroQ)
  | some i =>
    let penetration := RelaxedPenetration signedPenetration relaxation
    let delta_X := penetration * ((bodyRef bodies (some i)).InverseMass / invTotal)
    let delta_Q := penetration * (invAng / invTotal)
    let angularProjection := rel - N * (rel.Dot N)
    let max_Q := 0.3 * angularProjection.ImNorm
    let dd := ClampAngularMovement delta_X delta_Q max_Q
    let X_jolt := N * dd.1
    let bodies := updateRef bodies (some i) fun b => { b with Position := b.Position + X_jolt }
    if dd.2 = 0 then (bodies, X_jolt, Quaternion.zeroQ)
    else
      let Q_jolt := (invIW * rel.Cross N) * (dd.2 / invAng)
      let bodies := updateRef bodies (some i) fun b =>
        ({ b with Orientation :=
            b.Orientation + ((0.5 : ℝ) • Q_jolt) * b.Orientation } : RigidBody
         ).CalculateDerivedQuantities true
      (bodies, X_jolt, Q_jolt)

/-- Method `PositionProjection(X_jolt, Q_jolt, relaxation)`: computes the
angular inverse inertias of both bodies, the total inverse inertia, and then
applies a position (and possibly orientation) jolt to each body in turn;
returns the updated store and the two jolt pairs. -/
def PositionProjection (bodies : List RigidBody) (c : Collision) (relaxation : ℝ) :
    List RigidBody × (Quaternion × Quaternion) × (Quaternion × Quaternion) :=
  let invIW_A := (bodyRef bodies c.Body_A).InverseInertiaWorld
  let invIW_B := (bodyRef bodies c.Body_B).InverseInertiaWorld
  let invAng_A := InverseAngularInertia invIW_A c.RelativePositionA c.Normal
  let invAng_B := InverseAngularInertia invIW_B c.RelativePositionB c.Normal
  let totalA : ℝ :=
    match c.Body_A with
    | some i => (bodyRef bodies (some i)).InverseMass + invAng_A
    | none => 0
  let totalB : ℝ :=
    match c.Body_B with
    | some j => (bodyRef bodies (some j)).InverseMass + invAng_B
    | none => 0
  let invTotal := totalA + totalB
  let sideA := PositionProjectionSide bodies c.Body_A c.Penetration
    relaxation invIW_A invAng_A invTotal c.RelativePositionA c.Normal
  let sideB := PositionProjectionSide sideA.1 c.Body_B (-c.Penetration)
    relaxation invIW_B invAng_B invTotal c.RelativePositionB c.Normal
  (sideB.1, (sideA.2.1, sideB.2.1), (sideA.2.2, sideB.2.2))

end Collision

/-! ## CollisionResolver (CollisionResolver.h) -/

/-- Collision registry and response framework, as in `WoRB::CollisionResolver`:
a fixed-capacity arena of contacts with a free-space counter and a collision
counter, plus the global restitution, relaxation and friction coefficients.
The arena plus its cursor (`Collisions`/`NextFree`) become a list holding the
registered contacts in registration order. -/
structure CollisionResolver where
  MaxCollisionCount : ℕ
  Collisions : List Collision
  FreeCount : ℕ
  CollisionCount : ℕ
  Restitution : ℝ
  Relaxation : ℝ
  Friction : ℝ

namespace CollisionResolver

/-- Constructor `CollisionResolver(allocationArea, length)`: an empty registry
over an arena of the given length, with restitution 1, relaxation 0.2 and
friction 0. -/
def create (length : ℕ) : CollisionResolver :=
  { MaxCollisionCount := length
    Collisions := []
    FreeCount := length
    CollisionCount := 0
    Restitution := 1
    Relaxation := 0.2
    Friction := 0 }

/-- Getter `Count()`. -/
def Count (r : CollisionResolver) : ℕ := r.CollisionCount

/-- Predicate `HasSpaceForMoreContacts()`: `FreeCount > 0`. -/
def HasSpaceForMoreContacts (r : CollisionResolver) : Bool := r.FreeCount != 0

/-- Method `Initialize()`: resets the cursor, the free count and the collision
count, clearing the registry. -/
def Initialize (r : CollisionResolver) : CollisionResolver :=
  { r with Collisions := [], FreeCount := r.MaxCollisionCount, CollisionCount := 0 }

/-- Contact record written by `RegisterNewContact`: the five arguments plus
the resolver's friction and restitution.  The derived fields (basis, velocity,
bouncing velocity, relative positions) are not written by the source — the
arena slot keeps whatever was there — and are zero in this model; they are
always recomputed by `UpdateDerivedQuantities` before use. -/
def freshContact (r : CollisionResolver) (body_A body_B : Option ℕ)
    (position normal : Quaternion) (penetration : ℝ) : Collision :=
  { Collision.blank with
    Body_A := body_A
    Body_B := body_B
    Position := position
    Normal := normal
    Penetration := penetration
    Friction := r.Friction
    Restitution := r.Restitution }

/-- Method `RegisterNewContact`: returns 0 and leaves the registry unchanged
when no free slot remains; otherwise appends the contact, advances the
cursor, decrements the free count and increments the collision count,
returning 1. -/
def RegisterNewContact (r : CollisionResolver) (body_A body_B : Option ℕ)
    (position normal : Quaternion) (penetration : ℝ) : ℕ × CollisionResolver :=
  if r.FreeCount = 0 then (0, r)
  else
    (1,
     { r with
       Collisions := r.Collisions ++ [freshContact r body_A body_B position normal penetration]
       FreeCount := r.FreeCount - 1
       CollisionCount := r.CollisionCount + 1 })

/-- Method `UpdateDerivedQuantities(timeStep)`: updates the derived
quantities of every registered contact. -/
def UpdateDerivedQuantities (r : CollisionResolver) (bodies : List RigidBody)
    (timeStep : ℝ) : CollisionResolver :=
  { r with Collisions := r.Collisions.map fun c =>
      Collision.UpdateDerivedQuantities bodies c timeStep }

/-- Scan of `FindLargestBouncingVelocity` / `FindLargestPenetration`: walk the
registered contacts, raising the threshold to each strictly larger measure
seen and remembering that contact's index; ties keep the first-seen
contact. -/
def findLargestAux (measure : Collision → ℝ) :
    List Collision → ℕ → ℝ → Option ℕ → Option ℕ
  | [], _, _, best => best
  | c :: rest, i, eps, best =>
    if eps < measure c then findLargestAux measure rest (i + 1) (measure c) (some i)
    else findLargestAux measure rest (i + 1) eps best

/-- Method `FindLargestBouncingVelocity(eps)`: the index of the contact with
the largest bouncing velocity above `eps`, if any. -/
def FindLargestBouncingVelocity (r : CollisionResolver) (eps : ℝ) : Option ℕ :=
  findLargestAux (fun c => c.BouncingVelocity) r.Collisions 0 eps none

/-- Method `FindLargestPenetration(eps)`: the index of the contact with the
largest penetration above `eps`, if any. -/
def FindLargestPenetration (r : CollisionResolver) (eps : ℝ) : Option ℕ :=
  findLargestAux (fun c => c.Penetration) r.Collisions 0 eps none

end CollisionResolver

/-! ## Impulse transfer resolver (ImpulseMethod.cpp) -/

namespace Collision

/-- Contact-velocity adjustment of the inner update loop of
`ImpulseTransfers`: add the (possibly sign-flipped) contact-frame image of the
jolt `V_j + W_j x r` to the contact's velocity and recompute its bouncing
velocity. -/
def TouchVelocity (bodies : List RigidBody) (h : ℝ) (jolt : Quaternion × Quaternion)
    (negate : Bool) (rel : Quaternion) (ci : Collision) : Collision :=
  let delta_V := jolt.1 + jolt.2.Cross rel
  let dV_contact := ci.ToWorld.TransformInverseQ delta_V
  let ci := { ci with Velocity := ci.Velocity + (if negate then -dV_contact else dV_contact) }
  { ci with BouncingVelocity := GetBouncingVelocity bodies ci h }

/-- Inner update loop of `ImpulseTransfers` for one scanned contact: each of
the scanned contact's two bodies is matched against each body of the freshly
resolved contact ((a,b) in order (0,0), (0,1), (1,0), (1,1)); on a match the
corresponding jolt is folded into the scanned contact's velocity, negated for
the scanned contact's B side. -/
def UpdateAffectedVelocity (bodies : List RigidBody) (h : ℝ)
    (resolved_A resolved_B : Option ℕ)
    (jolt0 jolt1 : Quaternion × Quaternion) (ci : Collision) : Collision :=
  let ci :=
    match ci.Body_A with
    | none => ci
    | some k =>
      let ci := if some k = resolved_A
        then TouchVelocity bodies h jolt0 false ci.RelativePositionA ci else ci
      if some k = resolved_B
        then TouchVelocity bodies h jolt1 false ci.RelativePositionA ci else ci
  match ci.Body_B with
  | none => ci
  | some k =>
    let ci := if some k = resolved_A
      then TouchVelocity bodies h jolt0 true ci.RelativePositionB ci else ci
    if some k = resolved_B
      then TouchVelocity bodies h jolt1 true ci.RelativePositionB ci else ci

end Collision

namespace CollisionResolver

/-- Loop body plus recursion of `ImpulseTransfers`, with the remaining
iteration budget as fuel; returns the final state and the number of
iterations executed. -/
def ImpulseTransfersLoop (h eps : ℝ) :
    ℕ → List RigidBody × CollisionResolver → (List RigidBody × CollisionResolver) × ℕ
  | 0, s => (s, 0)
  | fuel + 1, (bodies, r) =>
    match r.FindLargestBouncingVelocity eps with
    | none => ((bodies, r), 0)
    | some idx =>
      let contact := r.Collisions.getD idx Collision.blank
      let bodies := Collision.ActivateInactiveBodies bodies contact
      let res := Collision.ImpulseTransfer bodies contact
      let newCollisions := r.Collisions.map
        (Collision.UpdateAffectedVelocity res.1 h contact.Body_A contact.Body_B
          (res.2.1.1, res.2.2.1) (res.2.1.2, res.2.2.2))
      let next := ImpulseTransfersLoop h eps fuel (res.1, { r with Collisions := newCollisions })
      (next.1, next.2 + 1)

/-- Method `ImpulseTransfers(timeStep, maxIterations, velocityEPS)`: with the
default `maxIterations = 0` the budget becomes `8 * CollisionCount` and a zero
`eps` becomes 0.01; the loop repeatedly resolves the contact with the largest
bouncing velocity.  The second component instruments the loop with the number
of iterations it executed. -/
def ImpulseTransfers (bodies : List RigidBody) (r : CollisionResolver)
    (h : ℝ) (maxIterations : ℕ) (eps : ℝ) :
    (List RigidBody × CollisionResolver) × ℕ :=
  if r.CollisionCount = 0 then ((bodies, r), 0)
  else
    let maxIterations := if maxIterations = 0 then 8 * r.CollisionCount else maxIterations
    let eps := if eps = 0 then 0.01 else eps
    ImpulseTransfersLoop h eps maxIterations (bodies, r)

end CollisionResolver

/-! ## Position projection resolver (PositionProjections.cpp) -/

namespace Collision

/-- Inner update loop of `PositionProjections` for one scanned contact: each
of the scanned contact's bodies is matched against each body of the freshly
resolved contact ((a,b) in order (0,0), (0,1), (1,0), (1,1)); on a match the
projected displacement `X_j + Q_j x r` along the scanned contact's normal is
added to (for its B side) or subtracted from (for its A side) its
penetration. -/
def UpdateAffectedPenetration (resolved_A resolved_B : Option ℕ)
    (X_jolt Q_jolt : Quaternion × Quaternion) (ci : Collision) : Collision :=
  let touch := fun (ci : Collision) (xj qj rel : Quaternion) (isB : Bool) =>
    let deltaPosition := xj + qj.Cross rel
    let dP_n := deltaPosition.Dot ci.Normal
    { ci with Penetration := ci.Penetration + (if isB then dP_n else -dP_n) }
  let ci :=
    match ci.Body_A with
    | none => ci
    | some k =>
      let ci := if some k = resolved_A
        then touch ci X_jolt.1 Q_jolt.1 ci.RelativePositionA false else ci
      if some k = resolved_B
        then touch ci X_jolt.2 Q_jolt.2 ci.RelativePositionA false else ci
  match ci.Body_B with
  | none => ci
  | some k =>
    let ci := if some k = resolved_A
      then touch ci X_jolt.1 Q_jolt.1 ci.RelativePositionB true else ci
    if some k = resolved_B
      then touch ci X_jolt.2 Q_jolt.2 ci.RelativePositionB true else ci

end Collision

namespace CollisionResolver

/-- Loop body plus recursion of `PositionProjections`, with the remaining
iteration budget as fuel; returns the final state and the number of
iterations executed. -/
def PositionProjectionsLoop (eps : ℝ) :
    ℕ → List RigidBody × CollisionResolver → (List RigidBody × CollisionResolver) × ℕ
  | 0, s => (s, 0)
  | fuel + 1, (bodies, r) =>
    match r.FindLargestPenetration eps with
    | none => ((bodies, r), 0)
    | some idx =>
      let contact := r.Collisions.getD idx Collision.blank
      let bodies := Collision.ActivateInactiveBodies bodies contact
      let res := Collision.PositionProjection bodies contact r.Relaxation
      let newCollisions := r.Collisions.map
        (Collision.UpdateAffectedPenetration contact.Body_A contact.Body_B res.2.1 res.2.2)
      let next := PositionProjectionsLoop eps fuel (res.1, { r with Collisions := newCollisions })
      (next.1, next.2 + 1)

/-- Method `PositionProjections(maxIterations, positionEPS)`: with the default
`maxIterations = 0` the budget becomes `8 * CollisionCount` and a zero `eps`
becomes 1e-2; the loop repeatedly resolves the contact with the largest
penetration.  The second component instruments the loop with the number of
iterations it executed. -/
def PositionProjections (bodies : List RigidBody) (r : CollisionResolver)
    (maxIterations : ℕ) (eps : ℝ) :
    (List RigidBody × CollisionResolver) × ℕ :=
  if r.CollisionCount = 0 then ((bodies, r), 0)
  else
    let maxIterations := if maxIterations = 0 then 8 * r.CollisionCount else maxIterations
    let eps := if eps = 0 then 1e-2 else eps
    PositionProjectionsLoop eps maxIterations (bodies, r)

end CollisionResolver

/-! ## Geometry (Geometry.h) and collision detection (CollisionDetection.cpp) -/

/-- Reading `Geometry::Position()` through a possibly-null body pointer:
column 3 of the owning body's world transform, or `Quaternion(0.0)` — the
zero quaternion — for scenery. -/
def geomPosition (bodies : List RigidBody) (body : Option ℕ) : Quaternion :=
  match body with
  | some i => (bodyRef bodies (some i)).ToWorld.Column 3
  | none => Quaternion.ofScalar 0

/-- Reading `Geometry::Axis(index)` through a possibly-null body pointer:
the indexed column of the owning body's world transform, or `Quaternion(0.0)`
— the zero quaternion — for scenery. -/
def geomAxis (bodies : List RigidBody) (body : Option ℕ) (index : ℕ) : Quaternion :=
  match body with
  | some i => (bodyRef bodies (some i)).ToWorld.Column index
  | none => Quaternion.ofScalar 0

/-- World transform of a geometry's body, `Body->ToWorld`.  The detectors
dereference the body unconditionally (scenery cuboids and spheres are never
constructed by the source); a null pointer yields the default body's identity
transform here. -/
def bodyToWorld (bodies : List RigidBody) (body : Option ℕ) : QTensor :=
  (bodyRef bodies body).ToWorld

/-- Subclass `Sphere`: an owning body reference and a radius. -/
structure Sphere where
  Body : Option ℕ
  Radius : ℝ

/-- Subclass `Cuboid`: an owning body reference and a half-extent vector. -/
structure Cuboid where
  Body : Option ℕ
  HalfExtent : Quaternion

/-- Subclass `HalfSpace`: a plane normal pointing out of the half-space and
an offset; always scenery in the source. -/
structure HalfSpace where
  Body : Option ℕ
  Direction : Quaternion
  Offset : ℝ

/-- Subclass `TruePlane`: a two-sided plane with normal and offset. -/
structure TruePlane where
  Body : Option ℕ
  Direction : Quaternion
  Offset : ℝ

/-- Tagged union of the four geometry subclasses; the discriminator
`GeometryClass` of the source is the constructor tag. -/
inductive Geometry where
  | sphere : Sphere → Geometry
  | cuboid : Cuboid → Geometry
  | halfspace : HalfSpace → Geometry
  | trueplane : TruePlane → Geometry

/-- Body back-reference of a geometry (`Geometry::Body`). -/
def Geometry.Body : Geometry → Option ℕ
  | .sphere s => s.Body
  | .cuboid c => c.Body
  | .halfspace h => h.Body
  | .trueplane p => p.Body

/-- Method `Geometry::Position()`. -/
def Geometry.Position (bodies : List RigidBody) (g : Geometry) : Quaternion :=
  geomPosition bodies g.Body

/-- Method `Geometry::Axis(index)`. -/
def Geometry.Axis (bodies : List RigidBody) (g : Geometry) (index : ℕ) : Quaternion :=
  geomAxis bodies g.Body index

namespace Sphere

/-- Distance computed by `Sphere::Check(owner, HalfSpace)`:
`n . X_s - r - d_plane`. -/
def HalfSpaceDistance (bodies : List RigidBody) (s : Sphere) (plane : HalfSpace) : ℝ :=
  plane.Direction.Dot (geomPosition bodies s.Body) - s.Radius - plane.Offset

/-- Detector `Sphere::Check(owner, const HalfSpace&)`: no contact when the
registry is full or the sphere is on or above the plane; otherwise one
contact at `X_s - n * (d + r)` with normal `n` and penetration `-d`. -/
def CheckHalfSpace (bodies : List RigidBody) (s : Sphere) (plane : HalfSpace)
    (owner : CollisionResolver) : ℕ × CollisionResolver :=
  if ¬owner.HasSpaceForMoreContacts then (0, owner)
  else
    let position := geomPosition bodies s.Body
    let distance := HalfSpaceDistance bodies s plane
    if 0 ≤ distance then (0, owner)
    else
      owner.RegisterNewContact s.Body none
        (position - plane.Direction * (distance + s.Radius))
        plane.Direction
        (-distance)

/-- Detector `Sphere::Check(owner, const TruePlane&)`: skip when the registry
is full or the center is farther than the radius from the plane; otherwise
one contact with the normal flipped toward the side containing the sphere. -/
def CheckTruePlane (bodies : List RigidBody) (s : Sphere) (plane : TruePlane)
    (owner : CollisionResolver) : ℕ × CollisionResolver :=
  if ¬owner.HasSpaceForMoreContacts then (0, owner)
  else
    let position := geomPosition bodies s.Body
    let distance := plane.Direction.Dot position - plane.Offset
    if s.Radius * s.Radius < distance * distance then (0, owner)
    else
      let nd : Quaternion × ℝ :=
        if distance < 0 then (-plane.Direction, distance) else (plane.Direction, -distance)
      owner.RegisterNewContact s.Body none
        (position - plane.Direction * distance)
        nd.1
        (nd.2 + s.Radius)

/-- Center displacement `X_A - X_B` of `Sphere::Check(owner, Sphere)`. -/
def Displacement (bodies : List RigidBody) (A B : Sphere) : Quaternion :=
  geomPosition bodies A.Body - geomPosition bodies B.Body

/-- Center distance `|X_A - X_B|` of `Sphere::Check(owner, Sphere)`. -/
def DistanceBetween (bodies : List RigidBody) (A B : Sphere) : ℝ :=
  (Displacement bodies A B).ImNorm

/-- Detector `Sphere::Check(owner, const Sphere&)`: skip when the registry is
full or the centers are at least `r_A + r_B` apart; otherwise one contact
half-way along the displacement with normal `displacement / distance`. -/
def CheckSphere (bodies : List RigidBody) (A B : Sphere)
    (owner : CollisionResolver) : ℕ × CollisionResolver :=
  if ¬owner.HasSpaceForMoreContacts then (0, owner)
  else
    let position_B := geomPosition bodies B.Body
    let displacement := Displacement bodies A B
    let distance := DistanceBetween bodies A B
    if A.Radius + B.Radius ≤ distance then (0, owner)
    else
      owner.RegisterNewContact A.Body B.Body
        (position_B + displacement * (0.5 : ℝ))
        (displacement * (1 / distance))
        (A.Radius + B.Radius - distance)

/-- Guard analysis of `Sphere::Check(owner, Sphere)`: the detector reaches the
normal computation `displacement * (1.0 / distance)` precisely when the
registry has space and the center distance is below the radius sum — these
are the only pre-checks before the division. -/
def CheckSphere_reachesNormalDivision (bodies : List RigidBody) (A B : Sphere)
    (owner : CollisionResolver) : Prop :=
  owner.HasSpaceForMoreContacts = true ∧ DistanceBetween bodies A B < A.Radius + B.Radius

end Sphere

namespace Cuboid

/-- Helper `Cuboid::Clamp(x, max)`. -/
def Clamp (x maxv : ℝ) : ℝ := if maxv < x then maxv else if x < -maxv then -maxv else x

/-- Helper `Cuboid::ProjectOn(vector)`: the sum of the half-extents'
projections on the given vector. -/
def ProjectOn (bodies : List RigidBody) (c : Cuboid) (vector : Quaternion) : ℝ :=
  c.HalfExtent.x * |vector.Dot (geomAxis bodies c.Body 0)|
    + c.HalfExtent.y * |vector.Dot (geomAxis bodies c.Body 1)|
    + c.HalfExtent.z * |vector.Dot (geomAxis bodies c.Body 2)|

/-- Helper `Cuboid::GetPenetrationOnAxis(B, axis, displacement)`. -/
def GetPenetrationOnAxis (bodies : List RigidBody) (A B : Cuboid)
    (axis displacement : Quaternion) : ℝ :=
  let direction := axis.Unit
  let proj_A := ProjectOn bodies A direction
  let proj_B := ProjectOn bodies B direction
  let distance := |displacement.Dot direction|
  proj_A + proj_B - distance

/-- Helper `Cuboid::CheckOverlapOnAxis(...)` of the SAT scan: skip an almost
degenerate axis; fail (`none`) on a negative penetration; keep the state,
replacing it when the axis has a strictly smaller penetration. -/
def CheckOverlapOnAxis (bodies : List RigidBody) (A B : Cuboid)
    (direction displacement : Quaternion) (tag_A tag_B : ℕ)
    (st : ℝ × ℕ × ℕ) : Option (ℝ × ℕ × ℕ) :=
  if direction.ImSquaredNorm < 1e-4 then some st
  else
    let penetration := GetPenetrationOnAxis bodies A B direction displacement
    if penetration < 0 then none
    else if penetration < st.1 then some (penetration, tag_A, tag_B)
    else some st

/-- Helper `Cuboid::FindContactPointOnEdges(...)`: closest approach of the two
edge segments by the two-line-nearest-point formula, degenerating to the
chosen edge's point for almost parallel edges or out-of-bounds parameters. -/
def FindContactPointOnEdges (ptOn_A axis_A : Quaternion) (edge_A : ℝ)
    (ptOn_B axis_B : Quaternion) (edge_B : ℝ) (use_A : Bool) : Quaternion :=
  let sqNorm_dA := axis_A.ImSquaredNorm
  let sqNorm_dB := axis_B.ImSquaredNorm
  let axis_AB := axis_B.Dot axis_A
  let p_AB := ptOn_A - ptOn_B
  let dpSta_A := p_AB.Dot axis_A
  let dpSta_B := p_AB.Dot axis_B
  let denominator := sqNorm_dA * sqNorm_dB - axis_AB * axis_AB
  if |denominator| < 1e-4 then (if use_A then ptOn_A else ptOn_B)
  else
    let mu_A := (axis_AB * dpSta_B - sqNorm_dB * dpSta_A) / denominator
    let mu_B := (sqNorm_dA * dpSta_B - axis_AB * dpSta_A) / denominator
    if edge_A < mu_A ∨ mu_A < -edge_A ∨ edge_B < mu_B ∨ mu_B < -edge_B then
      (if use_A then ptOn_A else ptOn_B)
    else
      (ptOn_A + axis_A * mu_A) * (0.5 : ℝ) + (ptOn_B + axis_B * mu_B) * (0.5 : ℝ)

/-- Helper `Cuboid::RegisterContactOnAxis(owner, B, displacement, axis,
penetration)`: vertex-face contact of cuboid B against a face of `self` on
the given axis; registers one contact at B's closest vertex (with mid-point
fallbacks on B-edges almost normal to the contact normal). -/
def RegisterContactOnAxis (bodies : List RigidBody) (self B : Cuboid)
    (displacement axis : Quaternion) (penetration : ℝ)
    (owner : CollisionResolver) : ℕ × CollisionResolver :=
  let normal := if 0 < axis.Dot displacement then -axis else axis
  let axis_Bn : Quaternion :=
    ⟨0, (geomAxis bodies B.Body 0).Dot normal,
        (geomAxis bodies B.Body 1).Dot normal,
        (geomAxis bodies B.Body 2).Dot normal⟩
  let comp := fun (i : ℕ) =>
    if |axis_Bn.Elem i| < 1e-4 then
      let distance_BA := -(displacement.Dot (geomAxis bodies B.Body i))
      let halfExtent_A := ProjectOn bodies self (geomAxis bodies B.Body i)
      let halfExtent_B := B.HalfExtent.Elem i
      let vxL := max (distance_BA - halfExtent_A) (-halfExtent_B)
      let vxR := min (distance_BA + halfExtent_A) halfExtent_B
      let vxM := 0.5 * (vxL + vxR)
      if |vxM| < 1e-4 then 0 else vxM
    else if 0 < axis_Bn.Elem i then B.HalfExtent.Elem i else -(B.HalfExtent.Elem i)
  let contactPointOn_B : Quaternion := ⟨0, comp 0, comp 1, comp 2⟩
  owner.RegisterNewContact self.Body B.Body
    ((bodyToWorld bodies B.Body).transformQ contactPointOn_B) normal penetration

/-- SAT detector `Cuboid::Check(owner, const Cuboid&)`: scan the six face
axes, remember whether a B-axis won so far (`use_A`), scan the nine cross
product axes, and synthesize a vertex-face or edge-edge contact from the axis
of smallest penetration; any separating axis yields no contact. -/
def CheckCuboid (bodies : List RigidBody) (A B : Cuboid)
    (owner : CollisionResolver) : ℕ × CollisionResolver :=
  let displacement := geomPosition bodies B.Body - geomPosition bodies A.Body
  let axisA := fun (i : ℕ) => geomAxis bodies A.Body i
  let axisB := fun (i : ℕ) => geomAxis bodies B.Body i
  let check := fun (st : Option (ℝ × ℕ × ℕ)) (cand : Quaternion × ℕ × ℕ) =>
    st.bind (CheckOverlapOnAxis bodies A B cand.1 displacement cand.2.1 cand.2.2)
  let st6 := ([(axisA 0, 0, 0xFF), (axisA 1, 1, 0xFF), (axisA 2, 2, 0xFF),
               (axisB 0, 0xFF, 0), (axisB 1, 0xFF, 1), (axisB 2, 0xFF, 2)] :
      List (Quaternion × ℕ × ℕ)).foldl check (some (Const.Max, 0xFF, 0xFF))
  match st6 with
  | none => (0, owner)
  | some stv =>
    let use_A : Bool := stv.2.2 != 0xFF
    let st15 := ([((axisA 0).Cross (axisB 0), 0, 0), ((axisA 0).Cross (axisB 1), 0, 1),
                  ((axisA 0).Cross (axisB 2), 0, 2), ((axisA 1).Cross (axisB 0), 1, 0),
                  ((axisA 1).Cross (axisB 1), 1, 1), ((axisA 1).Cross (axisB 2), 1, 2),
                  ((axisA 2).Cross (axisB 0), 2, 0), ((axisA 2).Cross (axisB 1), 2, 1),
                  ((axisA 2).Cross (axisB 2), 2, 2)] :
        List (Quaternion × ℕ × ℕ)).foldl check (some stv)
    match st15 with
    | none => (0, owner)
    | some (penetration, iA, iB) =>
      if iB = 0xFF then
        RegisterContactOnAxis bodies A B displacement (axisA iA) penetration owner
      else if iA = 0xFF then
        RegisterContactOnAxis bodies B A (-displacement) (axisB iB) penetration owner
      else
        let axis_A := axisA iA
        let axis_B := axisB iB
        let normal0 := (axis_A.Cross axis_B).Unit
        let normal := if 0 < normal0.Dot displacement then -normal0 else normal0
        let ptA_comp := fun (i : ℕ) =>
          if i = iA then 0
          else
            let axis_An := (axisA i).Dot normal
            if 1e-4 < |axis_An| then
              (if 0 < axis_An then -(A.HalfExtent.Elem i) else A.HalfExtent.Elem i)
            else 0
        let ptB_comp := fun (i : ℕ) =>
          if i = iB then 0
          else
            let axis_Bn := (axisB i).Dot normal
            if 1e-4 < |axis_Bn| then
              (if 0 < axis_Bn then B.HalfExtent.Elem i else -(B.HalfExtent.Elem i))
            else 0
        let ptOn_Edge_A : Quaternion := ⟨0, ptA_comp 0, ptA_comp 1, ptA_comp 2⟩
        let ptOn_Edge_B : Quaternion := ⟨0, ptB_comp 0, ptB_comp 1, ptB_comp 2⟩
        let contactPoint_world := FindContactPointOnEdges
          ((bodyToWorld bodies A.Body).transformQ ptOn_Edge_A) axis_A (A.HalfExtent.Elem iA)
          ((bodyToWorld bodies B.Body).transformQ ptOn_Edge_B) axis_B (B.HalfExtent.Elem iB)
          use_A
        owner.RegisterNewContact A.Body B.Body contactPoint_world normal penetration

/-- Detector `Cuboid::Check(owner, const Sphere&)`: clamp the sphere center
(in the cuboid's body frame) to the box and register a contact at the closest
point when it lies within the radius. -/
def CheckSphere (bodies : List RigidBody) (c : Cuboid) (s : Sphere)
    (owner : CollisionResolver) : ℕ × CollisionResolver :=
  let center := geomPosition bodies s.Body
  let relCenter := (bodyToWorld bodies c.Body).TransformInverseQ center
  if c.HalfExtent.x < |relCenter.x| - s.Radius ∨
     c.HalfExtent.y < |relCenter.y| - s.Radius ∨
     c.HalfExtent.z < |relCenter.z| - s.Radius then (0, owner)
  else
    let closestPoint : Quaternion :=
      ⟨0, Clamp relCenter.x c.HalfExtent.x, Clamp relCenter.y c.HalfExtent.y,
          Clamp relCenter.z c.HalfExtent.z⟩
    let distanceSq := (closestPoint - relCenter).ImSquaredNorm
    if s.Radius * s.Radius < distanceSq then (0, owner)
    else
      let distance := Real.sqrt distanceSq
      let closestPointWorld := (bodyToWorld bodies c.Body).transformQ closestPoint
      owner.RegisterNewContact c.Body s.Body closestPointWorld
        ((closestPointWorld - center).Unit) (s.Radius - distance)

/-- Predicate `Cuboid::Intersects(const HalfSpace&)`: quick rejection by the
projected half-extents. -/
def Intersects (bodies : List RigidBody) (c : Cuboid) (plane : HalfSpace) : Prop :=
  plane.Direction.Dot (geomPosition bodies c.Body) - ProjectOn bodies c plane.Direction
    ≤ plane.Offset

/-- Vertex scan of `Cuboid::Check(owner, const HalfSpace&)`: visit the eight
vertices while the registry has space, registering a contact half-way into
the plane for every vertex with non-negative penetration. -/
def CheckHalfSpaceVertexLoop (bodies : List RigidBody) (c : Cuboid) (plane : HalfSpace) :
    List (ℝ × ℝ × ℝ) → ℕ × CollisionResolver → ℕ × CollisionResolver
  | [], s => s
  | v :: rest, (contactCount, owner) =>
    if owner.HasSpaceForMoreContacts then
      let vertexPos : Quaternion := ⟨0, v.1, v.2.1, v.2.2⟩
      let vertexPos := vertexPos.ComponentWiseProduct c.HalfExtent
      let vertexPos := (bodyToWorld bodies c.Body).transformQ vertexPos
      let penetration := plane.Offset - vertexPos.Dot plane.Direction
      if 0 ≤ penetration then
        let (k, owner) := owner.RegisterNewContact c.Body none
          (vertexPos + ((0.5 * penetration) • plane.Direction))
          plane.Direction penetration
        CheckHalfSpaceVertexLoop bodies c plane rest (contactCount + k, owner)
      else
        CheckHalfSpaceVertexLoop bodies c plane rest (contactCount, owner)
    else (contactCount, owner)

/-- Vertex visiting order of the source's `vertices[8][3]` table. -/
def vertexTable : List (ℝ × ℝ × ℝ) :=
  [(1, 1, 1), (-1, 1, 1), (1, -1, 1), (-1, -1, 1),
   (1, 1, -1), (-1, 1, -1), (1, -1, -1), (-1, -1, -1)]

/-- Detector `Cuboid::Check(owner, const HalfSpace&)`: after the quick
rejection, either one mid-point contact when some cuboid axis is almost
parallel to the plane, or up to eight vertex contacts. -/
def CheckHalfSpace (bodies : List RigidBody) (c : Cuboid) (plane : HalfSpace)
    (owner : CollisionResolver) : ℕ × CollisionResolver :=
  if ¬owner.HasSpaceForMoreContacts then (0, owner)
  else if ¬Intersects bodies c plane then (0, owner)
  else
    let axis_n : Quaternion :=
      ⟨0, (geomAxis bodies c.Body 0).Dot plane.Direction,
          (geomAxis bodies c.Body 1).Dot plane.Direction,
          (geomAxis bodies c.Body 2).Dot plane.Direction⟩
    let step := fun (st : ℕ × Quaternion) (i : ℕ) =>
      if |axis_n.Elem i| < 1e-4 then (st.1 + 1, st.2)
      else (st.1, st.2.SetElem i
        (if axis_n.Elem i < 0 then c.HalfExtent.Elem i else -(c.HalfExtent.Elem i)))
    let pc := ([0, 1, 2] : List ℕ).foldl step (0, Quaternion.zeroQ)
    if 0 < pc.1 then
      let contactPoint := (bodyToWorld bodies c.Body).transformQ pc.2
      let penetration := plane.Offset - contactPoint.Dot plane.Direction
      owner.RegisterNewContact c.Body none
        (contactPoint + ((0.5 * penetration) • plane.Direction))
        plane.Direction penetration
    else
      CheckHalfSpaceVertexLoop bodies c plane vertexTable (0, owner)

end Cuboid

/-- Double dispatch `Geometry::Detect(owner, B)`: returns with a full
registry; otherwise switches on the pair of geometry classes, the unlisted
pairs being no-ops. -/
def Geometry.Detect (bodies : List RigidBody) (A : Geometry)
    (owner : CollisionResolver) (B : Geometry) : CollisionResolver :=
  if ¬owner.HasSpaceForMoreContacts then owner
  else
    match A, B with
    | .sphere sA, .sphere sB => (Sphere.CheckSphere bodies sA sB owner).2
    | .sphere sA, .cuboid cB => (Cuboid.CheckSphere bodies cB sA owner).2
    | .sphere sA, .halfspace hB => (Sphere.CheckHalfSpace bodies sA hB owner).2
    | .sphere sA, .trueplane pB => (Sphere.CheckTruePlane bodies sA pB owner).2
    | .cuboid cA, .sphere sB => (Cuboid.CheckSphere bodies cA sB owner).2
    | .cuboid cA, .cuboid cB => (Cuboid.CheckCuboid bodies cA cB owner).2
    | .cuboid cA, .halfspace hB => (Cuboid.CheckHalfSpace bodies cA hB owner).2
    | .cuboid _, .trueplane _ => owner
    | .halfspace hA, .sphere sB => (Sphere.CheckHalfSpace bodies sB hA owner).2
    | .halfspace hA, .cuboid cB => (Cuboid.CheckHalfSpace bodies cB hA owner).2
    | .halfspace _, .halfspace _ => owner
    | .halfspace _, .trueplane _ => owner
    | .trueplane pA, .sphere sB => (Sphere.CheckTruePlane bodies sB pA owner).2
    | .trueplane _, .cuboid _ => owner
    | .trueplane _, .halfspace _ => owner
    | .trueplane _, .trueplane _ => owner

/-! ## World orchestrator (WoRB.h) -/

/-- Iteration of the world's `RigidBodies` iterator with a per-body update:
visit the geometries in order, skipping scenery, and update each geometry's
body in place. -/
def foldBodies (f : RigidBody → RigidBody) (objects : List Geometry)
    (bodies : List RigidBody) : List RigidBody :=
  objects.foldl (fun acc g => updateRef acc g.Body f) bodies

/-- Iteration of the `RigidBodies` iterator accumulating a real quantity
over the non-scenery bodies. -/
def sumBodies (f : RigidBody → ℝ) (objects : List Geometry)
    (bodies : List RigidBody) : ℝ :=
  objects.foldl (fun acc g =>
    match g.Body with
    | some i => acc + f (bodyRef bodies (some i))
    | none => acc) 0

/-- Iteration of the `RigidBodies` iterator accumulating a quaternion
quantity over the non-scenery bodies. -/
def sumBodiesQ (f : RigidBody → Quaternion) (objects : List Geometry)
    (bodies : List RigidBody) : Quaternion :=
  objects.foldl (fun acc g =>
    match g.Body with
    | some i => acc + f (bodyRef bodies (some i))
    | none => acc) Quaternion.zeroQ

/-- All-pairs collision detection of `WorldOfRigidBodies::SolveODE`: for every
pair `(i, j)` with `i < j` in lexicographic order,
`Object[i]->Detect(Collisions, Object[j])`. -/
def DetectPairs (bodies : List RigidBody) :
    List Geometry → CollisionResolver → CollisionResolver
  | [], r => r
  | g :: rest, r => DetectPairs bodies rest (rest.foldl (Geometry.Detect bodies g) r)

/-- World of rigid bodies, as in the template class
`WorldOfRigidBodies<MaxObjects, MaxCollisions>`: the fixed capacity, the
geometry array with its count (a list here), gravity, clock, aggregates and
the collision registry (whose own capacity is `MaxCollisions`).  The bodies
referenced by the geometries live in the `Bodies` store. -/
structure WorldOfRigidBodies where
  MaxObjects : ℕ
  Object : List Geometry
  Gravity : Quaternion
  Time : ℝ
  TimeStepCount : ℕ
  TotalKineticEnergy : ℝ
  TotalPotentialEnergy : ℝ
  TotalLinearMomentum : Quaternion
  TotalAngularMomentum : Quaternion
  Collisions : CollisionResolver
  Bodies : List RigidBody

namespace WorldOfRigidBodies

/-- Outcome of `WorldOfRigidBodies::Add`: the updated world together with the
array slot that was written and whether the severe-error sink was invoked. -/
structure AddOutcome where
  world : WorldOfRigidBodies
  writtenIndex : ℕ
  severeErrorReported : Bool

/-- Method `WorldOfRigidBodies::Add(object)`: the source executes
`Object[ ObjectCount++ ] = object` with no capacity check against
`MaxObjects` and no call of the severe-error sink; the geometry is stored at
index `ObjectCount` (here: appended) and the count grows, whatever the
current count is. -/
def Add (w : WorldOfRigidBodies) (object : Geometry) : AddOutcome :=
  { world := { w with Object := w.Object ++ [object] }
    writtenIndex := w.Object.length
    severeErrorReported := false }

/-- Method `WorldOfRigidBodies::RemoveObjects()`. -/
def RemoveObjects (w : WorldOfRigidBodies) : WorldOfRigidBodies :=
  { w with Object := [] }

/-- Step method `WorldOfRigidBodies::SolveODE(h)`: apply gravity to every
body, integrate every body, advance the clock, recompute the aggregates,
clear the registry and run all-pairs detection, update the per-contact
derived quantities, run the impulse-transfer and position-projection
resolvers (with their default arguments), and clear the accumulators. -/
def SolveODE (w : WorldOfRigidBodies) (h : ℝ) : WorldOfRigidBodies :=
  let bodies := foldBodies
    (fun b =>
      let f_g := b.Mass * w.Gravity
      b.AddExternalForce f_g (-(f_g.Dot b.Position)))
    w.Object w.Bodies
  let bodies := foldBodies (fun b => b.SolveODE h) w.Object bodies
  let stepCount := w.TimeStepCount + 1
  let time := h * stepCount
  let tke := sumBodies (fun b => b.KineticEnergy) w.Object bodies
  let tpe := sumBodies (fun b => b.PotentialEnergy) w.Object bodies
  let tlm := sumBodiesQ (fun b => b.LinearMomentum) w.Object bodies
  let tam := sumBodiesQ (fun b => b.TotalAngularMomentum) w.Object bodies
  let r := w.Collisions.Initialize
  let r := DetectPairs bodies w.Object r
  let r := r.UpdateDerivedQuantities bodies h
  let sIT := CollisionResolver.ImpulseTransfers bodies r h 0 0.01
  let sPP := CollisionResolver.PositionProjections sIT.1.1 sIT.1.2 0 0.01
  let bodies := foldBodies RigidBody.ClearAccumulators w.Object sPP.1.1
  { w with
    Bodies := bodies
    Time := time
    TimeStepCount := stepCount
    TotalKineticEnergy := tke
    TotalPotentialEnergy := tpe
    TotalLinearMomentum := tlm
    TotalAngularMomentum := tam
    Collisions := sPP.1.2 }

end WorldOfRigidBodies

/-- Invariant used by the orientation claim: every body in the store carries
an exactly unit-normalized orientation quaternion. -/
def OriUnit (bodies : List RigidBody) : Prop :=
  ∀ b ∈ bodies, b.Orientation.SquaredNorm = 1

theorem oriUnit_updateRef {bodies : List RigidBody} {r : Option ℕ}
    {f : RigidBody → RigidBody}
    (hf : ∀ b, (f b).Orientation = b.Orientation ∨ (f b).Orientation.SquaredNorm = 1)
    (h : OriUnit bodies) : OriUnit (updateRef bodies r f) := by
  cases r with
  | none => exact h
  | some i =>
    simp only [updateRef]
    by_cases hlen : i < bodies.length
    · intro b hb
      rcases List.mem_or_eq_of_mem_set hb with hmem | heq
      · exact h b hmem
      · subst heq
        have hmem0 : bodies.getD i RigidBody.init ∈ bodies := by
          rw [List.getD_eq_getElem bodies RigidBody.init hlen]
          exact bodies.getElem_mem hlen
        rcases hf (bodies.getD i RigidBody.init) with horient | hunit
        · rw [horient]
          exact h _ hmem0
        · exact hunit
    · rw [List.set_eq_of_length_le (by omega)]
      exact h

theorem oriUnit_foldBodies {f : RigidBody → RigidBody}
    (hf : ∀ b, (f b).Orientation = b.Orientation ∨ (f b).Orientation.SquaredNorm = 1)
    (objects : List Geometry) :
    ∀ {bodies : List RigidBody}, OriUnit bodies → OriUnit (foldBodies f objects bodies) := by
  induction objects with
  | nil => intro bodies h; exact h
  | cons g rest ih =>
    intro bodies h
    have : foldBodies f (g :: rest) bodies = foldBodies f rest (updateRef bodies g.Body f) := rfl
    rw [this]
    exact ih (oriUnit_updateRef hf h)

theorem oriUnit_activateInactiveBodies {bodies : List RigidBody} {c : Collision}
    (h : OriUnit bodies) : OriUnit (Collision.ActivateInactiveBodies bodies c) := by
  simp only [Collision.ActivateInactiveBodies]
  split
  · split
    · split
      · exact oriUnit_updateRef (fun b => Or.inl (RigidBody.activate_orientation b)) h
      · exact oriUnit_updateRef (fun b => Or.inl (RigidBody.activate_orientation b)) h
    · exact h
  · exact h

theorem oriUnit_impulseTransfer {bodies : List RigidBody} {c : Collision}
    (h : OriUnit bodies) : OriUnit (Collision.ImpulseTransfer bodies c).1 := by
  simp only [Collision.ImpulseTransfer]
  split
  all_goals dsimp only
  · apply oriUnit_updateRef
    · intro b; exact Or.inl rfl
    · apply oriUnit_updateRef
      · intro b; exact Or.inl rfl
      · exact h
  · apply oriUnit_updateRef
    · intro b; exact Or.inl rfl
    · exact h

theorem oriUnit_positionProjectionSide {bodies : List RigidBody} {bodyIdx : Option ℕ}
    {sp relax : ℝ} {invIW : QTensor} {invAng invTotal : ℝ} {rel N : Quaternion}
    (h : OriUnit bodies) :
    OriUnit (Collision.PositionProjectionSide bodies bodyIdx sp relax invIW invAng
      invTotal rel N).1 := by
  simp only [Collision.PositionProjectionSide]
  split
  · exact h
  · split
    all_goals dsimp only
    · apply oriUnit_updateRef
      · intro b; exact Or.inl rfl
      · exact h
    · apply oriUnit_updateRef
      · intro b
        exact Or.inr (by
          rw [RigidBody.calculateDerivedQuantities_orientation]
          exact Quaternion.normalize_one_squaredNorm _)
      · apply oriUnit_updateRef
        · intro b; exact Or.inl rfl
        · exact h

theorem oriUnit_positionProjection {bodies : List RigidBody} {c : Collision} {relax : ℝ}
    (h : OriUnit bodies) : OriUnit (Collision.PositionProjection bodies c relax).1 := by
  simp only [Collision.PositionProjection]
  exact oriUnit_positionProjectionSide (oriUnit_positionProjectionSide h)

theorem oriUnit_impulseTransfersLoop (h eps : ℝ) :
    ∀ (fuel : ℕ) (s : List RigidBody × CollisionResolver), OriUnit s.1 →
      OriUnit (CollisionResolver.ImpulseTransfersLoop h eps fuel s).1.1 := by
  intro fuel
  induction fuel with
  | zero => intro s hs; exact hs
  | succ n ih =>
    intro s hs
    obtain ⟨bodies, r⟩ := s
    simp only [CollisionResolver.ImpulseTransfersLoop]
    split
    · exact hs
    · exact ih _ (oriUnit_impulseTransfer (oriUnit_activateInactiveBodies hs))

theorem oriUnit_positionProjectionsLoop (eps : ℝ) :
    ∀ (fuel : ℕ) (s : List RigidBody × CollisionResolver), OriUnit s.1 →
      OriUnit (CollisionResolver.PositionProjectionsLoop eps fuel s).1.1 := by
  intro fuel
  induction fuel with
  | zero => intro s hs; exact hs
  | succ n ih =>
    intro s hs
    obtain ⟨bodies, r⟩ := s
    simp only [CollisionResolver.PositionProjectionsLoop]
    split
    · exact hs
    · exact ih _ (oriUnit_positionProjection (oriUnit_activateInactiveBodies hs))

theorem oriUnit_impulseTransfers {bodies : List RigidBody} {r : CollisionResolver}
    {h eps : ℝ} {maxIterations : ℕ} (hb : OriUnit bodies) :
    OriUnit (CollisionResolver.ImpulseTransfers bodies r h maxIterations eps).1.1 := by
  simp only [CollisionResolver.ImpulseTransfers]
  split
  · exact hb
  · exact oriUnit_impulseTransfersLoop _ _ _ _ hb

theorem oriUnit_positionProjections {bodies : List RigidBody} {r : CollisionResolver}
    {eps : ℝ} {maxIterations : ℕ} (hb : OriUnit bodies) :
    OriUnit (CollisionResolver.PositionProjections bodies r maxIterations eps).1.1 := by
  simp only [CollisionResolver.PositionProjections]
  split
  · exact hb
  · exact oriUnit_positionProjectionsLoop _ _ _ hb

/-- Preservation of exactly unit orientations across one whole world step. -/
theorem oriUnit_worldSolveODE (w : WorldOfRigidBodies) (h : ℝ)
    (hw : OriUnit w.Bodies) : OriUnit (w.SolveODE h).Bodies := by
  simp only [WorldOfRigidBodies.SolveODE]
  apply oriUnit_foldBodies
  · intro b; exact Or.inl rfl
  · apply oriUnit_positionProjections
    apply oriUnit_impulseTransfers
    apply oriUnit_foldBodies
    · intro b; exact RigidBody.solveODE_orientation b h
    · apply oriUnit_foldBodies
      · intro b; exact Or.inl rfl
      · exact hw

theorem impulseTransfersLoop_count_le (h eps : ℝ) :
    ∀ (fuel : ℕ) (s : List RigidBody × CollisionResolver),
      (CollisionResolver.ImpulseTransfersLoop h eps fuel s).2 ≤ fuel := by
  intro fuel
  induction fuel with
  | zero => intro s; exact Nat.le_refl 0
  | succ n ih =>
    intro s
    obtain ⟨bodies, r⟩ := s
    simp only [CollisionResolver.ImpulseTransfersLoop]
    split
    · exact Nat.zero_le _
    · exact Nat.succ_le_succ (ih _)

theorem positionProjectionsLoop_count_le (eps : ℝ) :
    ∀ (fuel : ℕ) (s : List RigidBody × CollisionResolver),
      (CollisionResolver.PositionProjectionsLoop eps fuel s).2 ≤ fuel := by
  intro fuel
  induction fuel with
  | zero => intro s; exact Nat.le_refl 0
  | succ n ih =>
    intro s
    obtain ⟨bodies, r⟩ := s
    simp only [CollisionResolver.PositionProjectionsLoop]
    split
    · exact Nat.zero_le _
    · exact Nat.succ_le_succ (ih _)

/-! ## Claim C1: the mass encoding of `SetupMass` / `Mass` -/

/-- C1, counterexample: the claim states that setting mass = 0 makes the body
immovable with inverse mass 0; but `SetupMass(0)` stores the inverse mass
1e30 (the massless encoding), not 0. -/
theorem setupMass_zero_claim_false : ¬((RigidBody.init.SetupMass 0).InverseMass = 0) := by
  have hval : (RigidBody.init.SetupMass 0).InverseMass = 1e30 := by
    simp [RigidBody.SetupMass]
  rw [hval]
  norm_num

/-- C1, amended: `SetupMass` encodes mass through its inverse with the
thresholds the other way around from the claim: mass 0 stores inverse mass
1e30 and reads back as the massless value 0; mass at least 1e30 stores
inverse mass 0 (immovable, infinite mass) and reads back as 1e30; every
finite positive mass below 1e30 stores inverse mass `1/mass`, and reading
the mass back returns it exactly whenever it exceeds 1e-30; for a positive
mass at most 1e-30 the stored inverse `1/mass` reaches the 1e30 threshold
and the mass reads back as 0, not as the mass that was set. -/
theorem setupMass_inverse_encoding (b : RigidBody) (m : ℝ) :
    ((b.SetupMass 0).InverseMass = 1e30 ∧ (b.SetupMass 0).Mass = 0)
    ∧ (1e30 ≤ m → (b.SetupMass m).InverseMass = 0 ∧ (b.SetupMass m).Mass = 1e30)
    ∧ (0 < m → m < 1e30 → (b.SetupMass m).InverseMass = 1 / m)
    ∧ (1e-30 < m → m < 1e30 → (b.SetupMass m).Mass = m)
    ∧ (0 < m → m ≤ 1e-30 → (b.SetupMass m).Mass = 0) := by
  refine ⟨⟨?_, ?_⟩, ?_, ?_, ?_, ?_⟩
  · simp [RigidBody.SetupMass]
  · have hval : (b.SetupMass 0).InverseMass = 1e30 := by simp [RigidBody.SetupMass]
    unfold RigidBody.Mass
    rw [hval, if_neg (by norm_num), if_pos (by norm_num)]
  · intro hm
    have hm0 : m ≠ 0 := by intro h0; rw [h0] at hm; norm_num at hm
    have hval : (b.SetupMass m).InverseMass = 0 := by
      unfold RigidBody.SetupMass
      simp only
      rw [if_neg hm0, if_pos hm]
    refine ⟨hval, ?_⟩
    unfold RigidBody.Mass
    rw [hval, if_pos rfl]
  · intro h0 h30
    have hm0 : m ≠ 0 := ne_of_gt h0
    unfold RigidBody.SetupMass
    simp only
    rw [if_neg hm0, if_neg (by linarith)]
  · intro h0 h30
    have hpos : (0:ℝ) < m := by nlinarith
    have hm0 : m ≠ 0 := ne_of_gt hpos
    have hval : (b.SetupMass m).InverseMass = 1 / m := by
      unfold RigidBody.SetupMass
      simp only
      rw [if_neg hm0, if_neg (by linarith)]
    unfold RigidBody.Mass
    rw [hval, if_neg (one_div_ne_zero hm0), if_neg ?_, one_div_one_div]
    rw [not_le, div_lt_iff₀ hpos]
    nlinarith
  · intro h0 h30
    have hm0 : m ≠ 0 := ne_of_gt h0
    have hlt : m < 1e30 := lt_of_le_of_lt h30 (by norm_num)
    have hval : (b.SetupMass m).InverseMass = 1 / m := by
      unfold RigidBody.SetupMass
      simp only
      rw [if_neg hm0, if_neg (not_le.mpr hlt)]
    unfold RigidBody.Mass
    rw [hval, if_neg (one_div_ne_zero hm0), if_pos ?_]
    rw [le_div_iff₀ h0]
    nlinarith

/-- C1, witness: the amended encoding evaluated at the body created by the
default constructor, with mass 2 (exact round trip) and with mass 1e-31
(reads back 0). -/
theorem setupMass_inverse_encoding_witness :
    ((0:ℝ) < 2 ∧ (2:ℝ) < 1e30 ∧ (1e-30:ℝ) < 2 ∧ (0:ℝ) < 1e-31 ∧ (1e-31:ℝ) ≤ 1e-30)
    ∧ (RigidBody.init.SetupMass 2).InverseMass = 1 / 2
    ∧ (RigidBody.init.SetupMass 2).Mass = 2
    ∧ (RigidBody.init.SetupMass 1e-31).Mass = 0 :=
  ⟨⟨by norm_num, by norm_num, by norm_num, by norm_num, by norm_num⟩,
   (setupMass_inverse_encoding RigidBody.init 2).2.2.1 (by norm_num) (by norm_num),
   (setupMass_inverse_encoding RigidBody.init 2).2.2.2.1 (by norm_num) (by norm_num),
   (setupMass_inverse_encoding RigidBody.init 1e-31).2.2.2.2 (by norm_num) (by norm_num)⟩

/-! ## Claim C2: the contact registry under `RegisterNewContact` -/

/-- Argument tuple of one `RegisterNewContact` call. -/
structure RegisterCall where
  body_A : Option ℕ
  body_B : Option ℕ
  position : Quaternion
  normal : Quaternion
  penetration : ℝ

/-- One registration attempt: `RegisterNewContact` applied to the call's
arguments. -/
def applyCall (r : CollisionResolver) (a : RegisterCall) : ℕ × CollisionResolver :=
  r.RegisterNewContact a.body_A a.body_B a.position a.normal a.penetration

/-- Sequence of registration attempts applied in order. -/
def runCalls : CollisionResolver → List RegisterCall → CollisionResolver
  | r, [] => r
  | r, a :: rest => runCalls (applyCall r a).2 rest

/-- Number of successful registration attempts (return value 1) in a
sequence. -/
def successCount : CollisionResolver → List RegisterCall → ℕ
  | _, [] => 0
  | r, a :: rest => (applyCall r a).1 + successCount (applyCall r a).2 rest

/-- Structural invariant of the registry: the collision list is exactly
`CollisionCount` long, and counter plus free space equal the capacity. -/
def RegistryInv (r : CollisionResolver) : Prop :=
  r.Collisions.length = r.CollisionCount
    ∧ r.CollisionCount + r.FreeCount = r.MaxCollisionCount

theorem registryInv_initial (r : CollisionResolver) : RegistryInv r.Initialize := by
  constructor <;> simp [CollisionResolver.Initialize]

theorem registryInv_applyCall (r : CollisionResolver) (a : RegisterCall)
    (h : RegistryInv r) :
    RegistryInv (applyCall r a).2
    ∧ (applyCall r a).2.CollisionCount = r.CollisionCount + (applyCall r a).1
    ∧ (applyCall r a).2.MaxCollisionCount = r.MaxCollisionCount := by
  obtain ⟨h1, h2⟩ := h
  unfold applyCall CollisionResolver.RegisterNewContact
  split_ifs with hf
  · exact ⟨⟨h1, h2⟩, by simp, rfl⟩
  · refine ⟨⟨?_, ?_⟩, by simp, rfl⟩
    · simp [h1]
    · simp only
      omega

theorem runCalls_facts (calls : List RegisterCall) :
    ∀ (r : CollisionResolver), RegistryInv r →
      RegistryInv (runCalls r calls)
      ∧ (runCalls r calls).CollisionCount = r.CollisionCount + successCount r calls
      ∧ (runCalls r calls).MaxCollisionCount = r.MaxCollisionCount := by
  induction calls with
  | nil => intro r h; exact ⟨h, by simp [runCalls, successCount], rfl⟩
  | cons a rest ih =>
    intro r h
    obtain ⟨hinv, hcount, hmax⟩ := registryInv_applyCall r a h
    obtain ⟨ih1, ih2, ih3⟩ := ih (applyCall r a).2 hinv
    have hrun : runCalls r (a :: rest) = runCalls (applyCall r a).2 rest := rfl
    have hsucc : successCount r (a :: rest)
        = (applyCall r a).1 + successCount (applyCall r a).2 rest := rfl
    rw [hrun, hsucc]
    refine ⟨ih1, ?_, ih3.trans hmax⟩
    rw [ih2, hcount]
    omega

/-- C2: after `Initialize`, any sequence of registration attempts keeps the
registry's structural invariant; the final collision count equals the number
of successful `RegisterNewContact` calls and never exceeds the capacity fixed
at construction; and one further attempt returns 0 leaving the registry
unchanged exactly when the arena is full, while otherwise it returns 1,
appends exactly one contact and increments the counter by one. -/
theorem registerNewContact_correct (r0 : CollisionResolver)
    (calls : List RegisterCall) (a : RegisterCall) :
    (runCalls r0.Initialize calls).Collisions.length
        = (runCalls r0.Initialize calls).CollisionCount
    ∧ (runCalls r0.Initialize calls).CollisionCount
        = successCount r0.Initialize calls
    ∧ (runCalls r0.Initialize calls).CollisionCount ≤ r0.MaxCollisionCount
    ∧ (((applyCall (runCalls r0.Initialize calls) a).1 = 0
          ∧ (applyCall (runCalls r0.Initialize calls) a).2 = runCalls r0.Initialize calls)
        ↔ (runCalls r0.Initialize calls).CollisionCount = r0.MaxCollisionCount)
    ∧ ((runCalls r0.Initialize calls).CollisionCount < r0.MaxCollisionCount →
        (applyCall (runCalls r0.Initialize calls) a).1 = 1
        ∧ (applyCall (runCalls r0.Initialize calls) a).2.Collisions
            = (runCalls r0.Initialize calls).Collisions
              ++ [CollisionResolver.freshContact (runCalls r0.Initialize calls)
                    a.body_A a.body_B a.position a.normal a.penetration]
        ∧ (applyCall (runCalls r0.Initialize calls) a).2.CollisionCount
            = (runCalls r0.Initialize calls).CollisionCount + 1) := by
  obtain ⟨⟨hlen, hsum⟩, hcount, hmax⟩ :=
    runCalls_facts calls r0.Initialize (registryInv_initial r0)
  have hinitc : (CollisionResolver.Initialize r0).CollisionCount = 0 := rfl
  have hinitm : (CollisionResolver.Initialize r0).MaxCollisionCount
      = r0.MaxCollisionCount := rfl
  rw [hinitm] at hmax
  rw [hinitc] at hcount
  refine ⟨hlen, by omega, by omega, ?_, ?_⟩
  · constructor
    · rintro ⟨hret, _⟩
      by_cases hf : (runCalls r0.Initialize calls).FreeCount = 0
      · omega
      · exfalso
        unfold applyCall CollisionResolver.RegisterNewContact at hret
        rw [if_neg hf] at hret
        simp at hret
    · intro hfull
      have hf : (runCalls r0.Initialize calls).FreeCount = 0 := by omega
      unfold applyCall CollisionResolver.RegisterNewContact
      rw [if_pos hf]
      exact ⟨rfl, rfl⟩
  · intro hlt
    have hf : (runCalls r0.Initialize calls).FreeCount ≠ 0 := by omega
    unfold applyCall CollisionResolver.RegisterNewContact
    rw [if_neg hf]
    exact ⟨rfl, rfl, rfl⟩

/-- C2, witness: one registration on a freshly initialized registry of
capacity 2. -/
theorem registerNewContact_correct_witness :
    (runCalls (CollisionResolver.create 2).Initialize []).CollisionCount
        < (CollisionResolver.create 2).MaxCollisionCount
    ∧ (applyCall (runCalls (CollisionResolver.create 2).Initialize [])
        ⟨none, none, Quaternion.zeroQ, Const.Y, 1⟩).1 = 1 :=
  ⟨by decide,
   ((registerNewContact_correct (CollisionResolver.create 2) []
      ⟨none, none, Quaternion.zeroQ, Const.Y, 1⟩).2.2.2.2 (by decide)).1⟩

/-! ## Claim C10: `Activate` acts only on the inactive-to-active transition -/

/-- C10: `Activate` on an already active body changes nothing (in particular
the average kinetic energy is not re-seeded); on an inactive body it only
sets the active flag and seeds the average kinetic energy with exactly
`0.6 * Mass()`; consequently `Activate` is idempotent. -/
theorem activate_only_inactive_transition (b : RigidBody) :
    (b.IsActive = true → b.Activate = b)
    ∧ (b.IsActive = false →
        b.Activate = { b with IsActive := true, AverageKineticEnergy := 0.6 * b.Mass })
    ∧ b.Activate.Activate = b.Activate := by
  refine ⟨?_, ?_, ?_⟩
  · intro h
    unfold RigidBody.Activate
    rw [if_pos h]
  · intro h
    unfold RigidBody.Activate
    rw [if_neg (by rw [h]; exact Bool.false_ne_true)]
    rw [show (2 * 0.3 : ℝ) * b.Mass = 0.6 * b.Mass by norm_num]
  · by_cases h : b.IsActive
    · unfold RigidBody.Activate
      rw [if_pos h, if_pos h]
    · unfold RigidBody.Activate
      rw [if_neg h]
      rw [if_pos rfl]

/-- C10, witness: `Activate` evaluated on the (inactive) default-constructed
body. -/
theorem activate_only_inactive_transition_witness :
    RigidBody.init.IsActive = false
    ∧ RigidBody.init.Activate
        = { RigidBody.init with
            IsActive := true, AverageKineticEnergy := 0.6 * RigidBody.init.Mass } :=
  ⟨rfl, (activate_only_inactive_transition RigidBody.init).2.1 rfl⟩

/-! ## Claim C3: adding a geometry past the world's capacity -/

/-- Static scenery geometry used as a concrete input: the ground half-space. -/
def exampleGroundPlane : Geometry := Geometry.halfspace ⟨none, Const.Y, 0⟩

/-- Concrete world of capacity 1 that already holds one geometry (full). -/
def exampleFullWorld : WorldOfRigidBodies :=
  { MaxObjects := 1
    Object := [exampleGroundPlane]
    Gravity := Quaternion.zeroQ
    Time := 0
    TimeStepCount := 0
    TotalKineticEnergy := 0
    TotalPotentialEnergy := 0
    TotalLinearMomentum := Quaternion.zeroQ
    TotalAngularMomentum := Quaternion.zeroQ
    Collisions := CollisionResolver.create 4
    Bodies := [] }

/-- C3, counterexample: the claim states that adding a geometry to a world at
capacity reports a misuse error and does not write outside the object array;
but on a concrete full world `Add` reports no severe error and writes at an
index outside the array bounds. -/
theorem add_at_capacity_claim_false :
    (exampleFullWorld.Add exampleGroundPlane).severeErrorReported = false
    ∧ ¬((exampleFullWorld.Add exampleGroundPlane).writtenIndex
          < exampleFullWorld.MaxObjects) :=
  ⟨rfl, by decide⟩

/-- C3, amended: `WorldOfRigidBodies::Add` performs no capacity check at all:
for every world whose object count has reached `MaxObjects`, it stores the
geometry at index `MaxObjects` — one past the last valid slot of the object
array — increments the object count beyond the capacity, and never invokes
the severe-error sink. -/
theorem add_at_capacity_unchecked (w : WorldOfRigidBodies) (g : Geometry)
    (hfull : w.Object.length = w.MaxObjects) :
    (w.Add g).severeErrorReported = false
    ∧ (w.Add g).writtenIndex = w.MaxObjects
    ∧ ¬((w.Add g).writtenIndex < w.MaxObjects)
    ∧ (w.Add g).world.Object.length = w.MaxObjects + 1 := by
  refine ⟨rfl, ?_, ?_, ?_⟩
  · exact hfull
  · have hidx : (w.Add g).writtenIndex = w.MaxObjects := hfull
    rw [hidx]
    omega
  · have hlen : (w.Add g).world.Object.length = w.Object.length + 1 := by
      simp [WorldOfRigidBodies.Add]
    rw [hlen, hfull]

/-- C3, witness: the amended statement evaluated on the concrete full
world. -/
theorem add_at_capacity_unchecked_witness :
    exampleFullWorld.Object.length = exampleFullWorld.MaxObjects
    ∧ (exampleFullWorld.Add exampleGroundPlane).writtenIndex
        = exampleFullWorld.MaxObjects :=
  ⟨by decide, (add_at_capacity_unchecked exampleFullWorld exampleGroundPlane (by decide)).2.1⟩

/-! ## Claim C9: geometry `Position()` and `Axis(i)` readers -/

/-- C9, counterexample: the claim states `axis(i)` of a scenery geometry is
the i-th world basis vector; but the source returns `Quaternion(0.0)`, the
zero quaternion, which differs from the basis vector `Const::X` already at
index 0. -/
theorem scenery_axis_claim_false :
    Geometry.Axis [] exampleGroundPlane 0 ≠ Const.X := by
  intro hEq
  have hx := congrArg Quaternion.x hEq
  simp [Geometry.Axis, exampleGroundPlane, geomAxis, Geometry.Body, Quaternion.ofScalar,
    Const.X] at hx

/-- C9, amended: `position()` returns column 3 of the owning body's world
transform, or the zero vector for scenery; `axis(i)` returns column `i` of
the world transform, or — unlike the claimed world basis vector — the zero
vector for scenery. -/
theorem geometry_position_axis (bodies : List RigidBody) (g : Geometry) (index : ℕ) :
    (g.Body = none →
      g.Position bodies = Quaternion.ofScalar 0 ∧ g.Axis bodies index = Quaternion.ofScalar 0)
    ∧ (∀ k, g.Body = some k →
        g.Position bodies = (bodyRef bodies (some k)).ToWorld.Column 3
        ∧ g.Axis bodies index = (bodyRef bodies (some k)).ToWorld.Column index) := by
  constructor
  · intro h
    unfold Geometry.Position Geometry.Axis geomPosition geomAxis
    rw [h]
    exact ⟨rfl, rfl⟩
  · intro k h
    unfold Geometry.Position Geometry.Axis geomPosition geomAxis
    rw [h]
    exact ⟨rfl, rfl⟩

/-- C9, witness: the amended statement evaluated on the concrete scenery
half-space. -/
theorem geometry_position_axis_witness :
    exampleGroundPlane.Body = none
    ∧ Geometry.Position [] exampleGroundPlane = Quaternion.ofScalar 0
    ∧ Geometry.Axis [] exampleGroundPlane 0 = Quaternion.ofScalar 0 :=
  ⟨rfl, ((geometry_position_axis [] exampleGroundPlane 0).1 rfl).1,
   ((geometry_position_axis [] exampleGroundPlane 0).1 rfl).2⟩

/-! ## Claim C7: the sphere against half-space detector -/

/-- Concrete body store with one default-constructed body (center at the
origin, identity world transform). -/
def exampleBodies : List RigidBody := [RigidBody.init]

/-- Concrete unit sphere owned by body 0. -/
def exampleSphereA : Sphere := ⟨some 0, 1⟩

/-- Concrete ground half-space with upward unit normal. -/
def examplePlane : HalfSpace := ⟨none, Const.Y, 0⟩

/-- Concrete collision registry of capacity 4. -/
def exampleResolver : CollisionResolver := CollisionResolver.create 4

theorem hasSpace_iff (r : CollisionResolver) :
    r.HasSpaceForMoreContacts = true ↔ r.FreeCount ≠ 0 := by
  unfold CollisionResolver.HasSpaceForMoreContacts
  simp

/-- C7: for every sphere tested against a half-space with unit normal,
letting `d = n . X_s - r - d_plane`: if `0 ≤ d` the detector registers
nothing and returns 0; otherwise, given registry space, it registers exactly
one contact with contact point `X_s - n * (d + r)`, normal `n` and
penetration `-d`, and returns 1. -/
theorem sphereHalfSpace_detector_correct (bodies : List RigidBody) (s : Sphere)
    (plane : HalfSpace) (owner : CollisionResolver)
    (hunit : plane.Direction.ImSquaredNorm = 1) :
    (0 ≤ Sphere.HalfSpaceDistance bodies s plane →
      Sphere.CheckHalfSpace bodies s plane owner = (0, owner))
    ∧ (Sphere.HalfSpaceDistance bodies s plane < 0 → owner.FreeCount ≠ 0 →
        (Sphere.CheckHalfSpace bodies s plane owner).1 = 1
        ∧ (Sphere.CheckHalfSpace bodies s plane owner).2.Collisions
            = owner.Collisions
              ++ [CollisionResolver.freshContact owner s.Body none
                    (geomPosition bodies s.Body
                      - plane.Direction * (Sphere.HalfSpaceDistance bodies s plane + s.Radius))
                    plane.Direction
                    (-Sphere.HalfSpaceDistance bodies s plane)]
        ∧ (Sphere.CheckHalfSpace bodies s plane owner).2.CollisionCount
            = owner.CollisionCount + 1) := by
  constructor
  · intro hd
    simp only [Sphere.CheckHalfSpace]
    split_ifs with h1
    · rfl
    · rfl
  · intro hd hfree
    simp only [Sphere.CheckHalfSpace]
    rw [if_neg ?_, if_neg (not_le.mpr hd)]
    · unfold CollisionResolver.RegisterNewContact
      rw [if_neg hfree]
      exact ⟨rfl, rfl, rfl⟩
    · intro hcon
      exact hcon ((hasSpace_iff owner).mpr hfree)

/-- C7, witness: the detector evaluated on a unit sphere centered at the
origin against the ground half-space (distance -1, registry with space). -/
theorem sphereHalfSpace_detector_correct_witness :
    examplePlane.Direction.ImSquaredNorm = 1
    ∧ Sphere.HalfSpaceDistance exampleBodies exampleSphereA examplePlane < 0
    ∧ exampleResolver.FreeCount ≠ 0
    ∧ (Sphere.CheckHalfSpace exampleBodies exampleSphereA examplePlane exampleResolver).1
        = 1 := by
  have hunit : examplePlane.Direction.ImSquaredNorm = 1 := by
    norm_num [examplePlane, Const.Y, Quaternion.ImSquaredNorm]
  have hd : Sphere.HalfSpaceDistance exampleBodies exampleSphereA examplePlane < 0 := by
    norm_num [Sphere.HalfSpaceDistance, geomPosition, bodyRef, exampleBodies,
      exampleSphereA, examplePlane, RigidBody.init, QTensor.identity, QTensor.zeroT,
      QTensor.Column, Quaternion.Dot, Const.Y]
  have hfree : exampleResolver.FreeCount ≠ 0 := by decide
  exact ⟨hunit, hd, hfree,
    ((sphereHalfSpace_detector_correct exampleBodies exampleSphereA examplePlane
      exampleResolver hunit).2 hd hfree).1⟩

/-! ## Claim C8: division guards of the sphere against sphere detector -/

/-- Concrete store with two default-constructed bodies, both centered at the
origin (coincident sphere centers). -/
def exampleCoincidentBodies : List RigidBody := [RigidBody.init, RigidBody.init]

/-- Concrete unit sphere owned by body 1. -/
def exampleSphereB : Sphere := ⟨some 1, 1⟩

/-- Concrete body translated 3 units along x. -/
def exampleShiftedBody : RigidBody :=
  { RigidBody.init with
    ToWorld := QTensor.SetFromOrientationAndPosition ⟨1, 0, 0, 0⟩ ⟨0, 3, 0, 0⟩ }

/-- Concrete store with two bodies 3 units apart. -/
def exampleDistinctBodies : List RigidBody := [RigidBody.init, exampleShiftedBody]

/-- C8, counterexample: the claim states the sphere/sphere normal computation
`displacement / distance` never divides by zero, even for coincident centers;
but with two unit spheres at coincident centers the detector passes its only
pre-checks (registry space and `distance < r_A + r_B`) and reaches the
division with `distance = 0`. -/
theorem sphereSphere_division_claim_false :
    Sphere.CheckSphere_reachesNormalDivision exampleCoincidentBodies
      exampleSphereA exampleSphereB exampleResolver
    ∧ Sphere.DistanceBetween exampleCoincidentBodies exampleSphereA exampleSphereB = 0 := by
  have hdist :
      Sphere.DistanceBetween exampleCoincidentBodies exampleSphereA exampleSphereB = 0 := by
    have him : (Sphere.Displacement exampleCoincidentBodies exampleSphereA
        exampleSphereB).ImSquaredNorm = 0 := by
      norm_num [Sphere.Displacement, geomPosition, bodyRef, exampleCoincidentBodies,
        exampleSphereA, exampleSphereB, RigidBody.init, QTensor.identity, QTensor.zeroT,
        QTensor.Column, Quaternion.ImSquaredNorm, Quaternion.sub]
    unfold Sphere.DistanceBetween Quaternion.ImNorm
    rw [him, Real.sqrt_zero]
  refine ⟨⟨by decide, ?_⟩, hdist⟩
  rw [hdist]
  norm_num [exampleSphereA, exampleSphereB]

/-- C8, amended: the only guards before the sphere/sphere normal division are
the registry-space check and the separation check `distance < r_A + r_B`;
they protect the division exactly when the centers are distinct: the divisor
`distance` vanishes precisely when the center displacement has zero vector
part, and is strictly positive otherwise — so at coincident centers (where
the distance 0 is below the radius sum) the division by zero is reached. -/
theorem sphereSphere_division_guard (bodies : List RigidBody) (A B : Sphere)
    (owner : CollisionResolver) :
    (Sphere.CheckSphere_reachesNormalDivision bodies A B owner ↔
      (owner.HasSpaceForMoreContacts = true
        ∧ Sphere.DistanceBetween bodies A B < A.Radius + B.Radius))
    ∧ (Sphere.DistanceBetween bodies A B = 0 ↔
        (Sphere.Displacement bodies A B).ImSquaredNorm = 0)
    ∧ ((Sphere.Displacement bodies A B).ImSquaredNorm ≠ 0 →
        0 < Sphere.DistanceBetween bodies A B) := by
  have hnn : 0 ≤ (Sphere.Displacement bodies A B).ImSquaredNorm := by
    unfold Quaternion.ImSquaredNorm
    nlinarith [mul_self_nonneg (Sphere.Displacement bodies A B).x,
      mul_self_nonneg (Sphere.Displacement bodies A B).y,
      mul_self_nonneg (Sphere.Displacement bodies A B).z]
  refine ⟨Iff.rfl, ?_, ?_⟩
  · unfold Sphere.DistanceBetween Quaternion.ImNorm
    constructor
    · intro h
      have := Real.sqrt_eq_zero hnn |>.mp h
      exact this
    · intro h
      rw [h, Real.sqrt_zero]
  · intro h
    unfold Sphere.DistanceBetween Quaternion.ImNorm
    exact Real.sqrt_pos.mpr (lt_of_le_of_ne hnn (Ne.symm h))

/-- C8, witness: the guard evaluated on two unit spheres 3 units apart: the
displacement has squared vector norm 9 and the divisor is positive. -/
theorem sphereSphere_division_guard_witness :
    (Sphere.Displacement exampleDistinctBodies exampleSphereA exampleSphereB).ImSquaredNorm ≠ 0
    ∧ 0 < Sphere.DistanceBetween exampleDistinctBodies exampleSphereA exampleSphereB := by
  have him : (Sphere.Displacement exampleDistinctBodies exampleSphereA
      exampleSphereB).ImSquaredNorm = 9 := by
    norm_num [Sphere.Displacement, geomPosition, bodyRef, exampleDistinctBodies,
      exampleSphereA, exampleSphereB, exampleShiftedBody, RigidBody.init,
      QTensor.identity, QTensor.zeroT, QTensor.SetFromOrientationAndPosition,
      QTensor.Column, Quaternion.ImSquaredNorm, Quaternion.sub]
  have hne : (Sphere.Displacement exampleDistinctBodies exampleSphereA
      exampleSphereB).ImSquaredNorm ≠ 0 := by rw [him]; norm_num
  exact ⟨hne, (sphereSphere_division_guard exampleDistinctBodies exampleSphereA
    exampleSphereB exampleResolver).2.2 hne⟩

/-! ## Claim C5: impulse transfer preserves the total linear momentum -/

theorem getD_set_self (l : List RigidBody) (i : ℕ) (x : RigidBody) (h : i < l.length) :
    (l.set i x).getD i RigidBody.init = x := by
  rw [List.getD_eq_getElem _ _ (by simpa using h)]
  exact List.getElem_set_self _

theorem getD_set_ne (l : List RigidBody) (i j : ℕ) (x : RigidBody) (hij : i ≠ j)
    (hj : j < l.length) :
    (l.set i x).getD j RigidBody.init = l.getD j RigidBody.init := by
  rw [List.getD_eq_getElem _ _ (by simpa using hj), List.getD_eq_getElem _ _ hj]
  exact List.getElem_set_ne hij _

/-- C5: for every contact between two (distinct, valid) finite-mass bodies, a
single `Collision::ImpulseTransfer` adds some world-frame impulse `J` to body
A's linear momentum and subtracts exactly the same `J` from body B's, so the
sum of the two linear momenta is preserved. -/
theorem impulseTransfer_momentum_conservation (bodies : List RigidBody) (c : Collision)
    (a b : ℕ) (hA : c.Body_A = some a) (hB : c.Body_B = some b) (hab : a ≠ b)
    (ha : a < bodies.length) (hb : b < bodies.length)
    (hfa : (bodyRef bodies (some a)).IsFiniteMass)
    (hfb : (bodyRef bodies (some b)).IsFiniteMass) :
    (bodyRef (Collision.ImpulseTransfer bodies c).1 (some a)).LinearMomentum
      + (bodyRef (Collision.ImpulseTransfer bodies c).1 (some b)).LinearMomentum
    = (bodyRef bodies (some a)).LinearMomentum
      + (bodyRef bodies (some b)).LinearMomentum := by
  simp only [Collision.ImpulseTransfer, hA, hB, bodyRef, updateRef]
  rw [getD_set_ne _ b a _ (Ne.symm hab) (by simpa using ha)]
  rw [getD_set_self _ a _ ha]
  rw [getD_set_self _ b _ (by simpa using hb)]
  rw [getD_set_ne _ a b _ hab hb]
  ext <;> simp

/-- C5, witness: two bodies of inverse mass 1 joined by a contact. -/
theorem impulseTransfer_momentum_conservation_witness :
    ({ Collision.blank with Body_A := some 0, Body_B := some 1 } : Collision).Body_A = some 0
    ∧ (bodyRef [{ RigidBody.init with InverseMass := 1 },
                { RigidBody.init with InverseMass := 1 }] (some 0)).IsFiniteMass
    ∧ ((bodyRef (Collision.ImpulseTransfer
          [{ RigidBody.init with InverseMass := 1 },
           { RigidBody.init with InverseMass := 1 }]
          { Collision.blank with Body_A := some 0, Body_B := some 1 }).1
          (some 0)).LinearMomentum
        + (bodyRef (Collision.ImpulseTransfer
            [{ RigidBody.init with InverseMass := 1 },
             { RigidBody.init with InverseMass := 1 }]
            { Collision.blank with Body_A := some 0, Body_B := some 1 }).1
            (some 1)).LinearMomentum
      = (bodyRef [{ RigidBody.init with InverseMass := 1 },
                  { RigidBody.init with InverseMass := 1 }] (some 0)).LinearMomentum
        + (bodyRef [{ RigidBody.init with InverseMass := 1 },
                    { RigidBody.init with InverseMass := 1 }] (some 1)).LinearMomentum) := by
  refine ⟨rfl, ?_, ?_⟩
  · show (0:ℝ) < 1
    norm_num
  · exact impulseTransfer_momentum_conservation _ _ 0 1 rfl rfl (by decide)
      (by decide) (by decide) (by show (0:ℝ) < 1; norm_num) (by show (0:ℝ) < 1; norm_num)

/-! ## Claim C6: both resolvers stop within 8 times the contact count -/

/-- C6: called with `maxIterations = 0` (the default), both resolvers perform
at most `8 * CollisionCount` iterations and then stop, for every contact
configuration and every tolerance — including configurations where some
contact still exceeds the tolerance when the cap is reached; the loops are
total functions, so neither resolver blocks or waits. -/
theorem resolvers_iteration_bound (bodies : List RigidBody) (r : CollisionResolver)
    (h eps eps' : ℝ) :
    (CollisionResolver.ImpulseTransfers bodies r h 0 eps).2 ≤ 8 * r.CollisionCount
    ∧ (CollisionResolver.PositionProjections bodies r 0 eps').2 ≤ 8 * r.CollisionCount := by
  constructor
  · unfold CollisionResolver.ImpulseTransfers
    by_cases h0 : r.CollisionCount = 0
    · rw [if_pos h0]
      exact Nat.zero_le _
    · rw [if_neg h0]
      show (CollisionResolver.ImpulseTransfersLoop h (if eps = 0 then 0.01 else eps)
          (if (0:ℕ) = 0 then 8 * r.CollisionCount else 0) (bodies, r)).2
        ≤ 8 * r.CollisionCount
      exact le_trans (impulseTransfersLoop_count_le h _ _ _) (by simp)
  · unfold CollisionResolver.PositionProjections
    by_cases h0 : r.CollisionCount = 0
    · rw [if_pos h0]
      exact Nat.zero_le _
    · rw [if_neg h0]
      show (CollisionResolver.PositionProjectionsLoop (if eps' = 0 then 1e-2 else eps')
          (if (0:ℕ) = 0 then 8 * r.CollisionCount else 0) (bodies, r)).2
        ≤ 8 * r.CollisionCount
      exact le_trans (positionProjectionsLoop_count_le _ _ _) (by simp)

/-! ## Claim C4: the orientation stays a unit quaternion across a world step -/

/-- Concrete body with an exactly unit orientation quaternion. -/
def exampleUnitBody : RigidBody := { RigidBody.init with Orientation := ⟨1, 0, 0, 0⟩ }

/-- Concrete world holding one sphere owned by one unit-orientation body. -/
def exampleWorld : WorldOfRigidBodies :=
  { MaxObjects := 4
    Object := [Geometry.sphere ⟨some 0, 1⟩]
    Gravity := Quaternion.zeroQ
    Time := 0
    TimeStepCount := 0
    TotalKineticEnergy := 0
    TotalPotentialEnergy := 0
    TotalLinearMomentum := Quaternion.zeroQ
    TotalAngularMomentum := Quaternion.zeroQ
    Collisions := CollisionResolver.create 4
    Bodies := [exampleUnitBody] }

/-- C4: after any call of the world's step (`WorldOfRigidBodies::SolveODE`
with any `h`), the orientation quaternion of every body in the world is a
unit quaternion (exactly, hence `|Q| = 1` to within 1e-9), provided every
body entered the step with a unit orientation — which `Set_XQVW` (used by the
`Ball` and `Box` constructors) establishes for every input, as the second
conjunct states.  The invariant covers bodies skipped as inactive (their
orientation is untouched) and bodies whose orientation was modified by
position projection (which re-normalizes). -/
theorem worldStep_orientation_unit (w : WorldOfRigidBodies) (h : ℝ)
    (hw : ∀ b ∈ w.Bodies, b.Orientation.SquaredNorm = 1) :
    (∀ b ∈ (w.SolveODE h).Bodies,
      b.Orientation.SquaredNorm = 1 ∧ |b.Orientation.Norm - 1| ≤ 1e-9)
    ∧ (∀ (b : RigidBody) (X Q V W : Quaternion),
        ((b.Set_XQVW X Q V W).Orientation).SquaredNorm = 1) := by
  constructor
  · intro b hb
    have h1 : b.Orientation.SquaredNorm = 1 := oriUnit_worldSolveODE w h hw b hb
    refine ⟨h1, ?_⟩
    have hN : b.Orientation.Norm = 1 := by
      unfold Quaternion.Norm
      rw [h1]
      exact Real.sqrt_one
    rw [hN]
    norm_num
  · intro b X Q V W
    have : (b.Set_XQVW X Q V W).Orientation = Q.Normalize 1 := rfl
    rw [this]
    exact Quaternion.normalize_one_squaredNorm Q

/-- C4, witness: one step of length 1 on the concrete one-body world. -/
theorem worldStep_orientation_unit_witness :
    (∀ b ∈ exampleWorld.Bodies, b.Orientation.SquaredNorm = 1)
    ∧ (∀ b ∈ (exampleWorld.SolveODE 1).Bodies,
        b.Orientation.SquaredNorm = 1 ∧ |b.Orientation.Norm - 1| ≤ 1e-9) := by
  have hw : ∀ b ∈ exampleWorld.Bodies, b.Orientation.SquaredNorm = 1 := by
    intro b hb
    simp only [exampleWorld, List.mem_singleton] at hb
    subst hb
    norm_num [exampleUnitBody, Quaternion.SquaredNorm]
  exact ⟨hw, (worldStep_orientation_unit exampleWorld 1 hw).1⟩

end WoRB
